import Mathlib

/-!
# The RGW JNI adapter (`src/java/native/libcephrgw_jni.cc`)

A shallow embedding of the adapter functions of `libcephrgw_jni.cc` and the
properties established about them.

Conventions of the embedding.

* `jint`, `jlong`, `int`, `long` values are `Int`; a conversion that can wrap
  is written out (`toJint`, `toJlong`).
* A host reference that may be `null` (a `jstring`, a carrier object, a byte
  array) is an `Option`; `none` is `null`.  A C pointer that may be `NULL`
  (the result of a pin) is an `Option` as well.
* What the file takes from headers it only includes (libc, `jni.h`,
  `rgw_file.h`, `ceph_fs.h`) is a parameter: the constants and macros are the
  fields of `Platform`, the JNI runtime is `Host`, the gateway library is `Rgw`.
* Every function returns, next to its C return value, the list of the boundary
  events it performed, in program order.
-/

namespace CephRgwJni

/-! ## Host flag constants (lines 50-90) -/

def JAVA_O_RDONLY : Int := 1
def JAVA_O_RDWR : Int := 2
def JAVA_O_APPEND : Int := 4
def JAVA_O_CREAT : Int := 8
def JAVA_O_TRUNC : Int := 16
def JAVA_O_EXCL : Int := 32
def JAVA_O_WRONLY : Int := 64
def JAVA_O_DIRECTORY : Int := 128

def JAVA_SETATTR_MODE : Int := 1
def JAVA_SETATTR_UID : Int := 2
def JAVA_SETATTR_GID : Int := 4
def JAVA_SETATTR_MTIME : Int := 8
def JAVA_SETATTR_ATIME : Int := 16

def CEPH_STAT_CP : String := "com/ceph/rgw/CephStat"
def CEPH_STAT_VFS_CP : String := "com/ceph/rgw/CEphStatVFS"
def CEPH_FILEEXISTS_CP : String := "com/ceph/rgw/CephFileAlreadyExistsException"

/-- Modelled from the spec: `errno.h` is not among the sources; the scenarios of
the specification give `-ENOENT = -2`. -/
def ENOENT : Int := 2

/-- Modelled from the spec: `errno.h` is not among the sources; the scenarios of
the specification give `-EEXIST = -17`. -/
def EEXIST : Int := 17

/-- The constants and macros that `libcephrgw_jni.cc` uses and that are declared
in headers outside the translated file: the libc open flags (`fcntl.h`), the
`CEPH_SETATTR_*` and `RGW_*` flag values, the file-type macros of `sys/stat.h`,
`strerror`, and the identifier `JAVA_O_CREATE`, which `native_ceph_open` tests
(line 769) and which the file never defines.  Flag words are bit patterns and
are kept as natural numbers. -/
structure Platform where
  O_RDONLY : Nat
  O_RDWR : Nat
  O_APPEND : Nat
  O_CREAT : Nat
  O_TRUNC : Nat
  O_EXCL : Nat
  O_WRONLY : Nat
  O_DIRECTORY : Nat
  CEPH_SETATTR_MODE : Nat
  CEPH_SETATTR_UID : Nat
  CEPH_SETATTR_GID : Nat
  CEPH_SETATTR_MTIME : Nat
  CEPH_SETATTR_ATIME : Nat
  RGW_LOOKUP_FLAG_NONE : Nat
  RGW_LOOKUP_FLAG_CREATE : Nat
  RGW_LOOKUP_FLAG_RCB : Nat
  RGW_LOOKUP_FLAG_FILE : Nat
  RGW_SETATTR_MODE : Nat
  JAVA_O_CREATE : Int
  S_ISREG : Nat → Bool
  S_ISDIR : Nat → Bool
  S_ISLNK : Nat → Bool
  strerror : Int → String

/-- The values of a Linux x86-64 build (`fcntl.h`, `sys/stat.h`, `rgw_file.h`,
`ceph_fs.h`), used where a concrete platform is needed. -/
def linuxPlatform : Platform where
  O_RDONLY := 0
  O_RDWR := 2
  O_APPEND := 1024
  O_CREAT := 64
  O_TRUNC := 512
  O_EXCL := 128
  O_WRONLY := 1
  O_DIRECTORY := 65536
  CEPH_SETATTR_MODE := 1
  CEPH_SETATTR_UID := 2
  CEPH_SETATTR_GID := 4
  CEPH_SETATTR_MTIME := 8
  CEPH_SETATTR_ATIME := 16
  RGW_LOOKUP_FLAG_NONE := 0
  RGW_LOOKUP_FLAG_CREATE := 1
  RGW_LOOKUP_FLAG_RCB := 2
  RGW_LOOKUP_FLAG_FILE := 8
  RGW_SETATTR_MODE := 1
  JAVA_O_CREATE := 8
  S_ISREG := fun m => m &&& 61440 == 32768
  S_ISDIR := fun m => m &&& 61440 == 16384
  S_ISLNK := fun m => m &&& 61440 == 40960
  strerror := fun e =>
    if e = 0 then "Success"
    else if e = 2 then "No such file or directory"
    else if e = 5 then "Input/output error"
    else if e = 13 then "Permission denied"
    else if e = 17 then "File exists"
    else "Unknown error"

/-! ## Flag and mask translators (lines 93-133) -/

/-- The body of the macros `FIXUP_OPEN_FLAG` and `FIXUP_ATTR_MASK`:
`if (jflags & JAVA_name) ret |= name;`. -/
def FIXUP (jflags : Int) (javaBit : Int) (nativeBit : Nat) (ret : Nat) : Nat :=
  if Int.land jflags javaBit ≠ 0 then ret ||| nativeBit else ret

/-- Map `JAVA_O_*` open flags to the values in libc (lines 93-113). -/
def fixup_open_flags (P : Platform) (jflags : Int) : Nat :=
  let ret := 0
  let ret := FIXUP jflags JAVA_O_RDONLY P.O_RDONLY ret
  let ret := FIXUP jflags JAVA_O_RDWR P.O_RDWR ret
  let ret := FIXUP jflags JAVA_O_APPEND P.O_APPEND ret
  let ret := FIXUP jflags JAVA_O_CREAT P.O_CREAT ret
  let ret := FIXUP jflags JAVA_O_TRUNC P.O_TRUNC ret
  let ret := FIXUP jflags JAVA_O_EXCL P.O_EXCL ret
  let ret := FIXUP jflags JAVA_O_WRONLY P.O_WRONLY ret
  let ret := FIXUP jflags JAVA_O_DIRECTORY P.O_DIRECTORY ret
  ret

/-- Map `JAVA_SETATTR_*` to the values of the ceph library (lines 116-133). -/
def fixup_attr_mask (P : Platform) (jmask : Int) : Nat :=
  let mask := 0
  let mask := FIXUP jmask JAVA_SETATTR_MODE P.CEPH_SETATTR_MODE mask
  let mask := FIXUP jmask JAVA_SETATTR_UID P.CEPH_SETATTR_UID mask
  let mask := FIXUP jmask JAVA_SETATTR_GID P.CEPH_SETATTR_GID mask
  let mask := FIXUP jmask JAVA_SETATTR_MTIME P.CEPH_SETATTR_MTIME mask
  let mask := FIXUP jmask JAVA_SETATTR_ATIME P.CEPH_SETATTR_ATIME mask
  mask

/-- The five native bits of the setattr table are distinct bits: none is zero
and no two of them overlap. -/
def Platform.AttrBitsDistinct (P : Platform) : Prop :=
  P.CEPH_SETATTR_MODE ≠ 0 ∧ P.CEPH_SETATTR_UID ≠ 0 ∧ P.CEPH_SETATTR_GID ≠ 0 ∧
  P.CEPH_SETATTR_MTIME ≠ 0 ∧ P.CEPH_SETATTR_ATIME ≠ 0 ∧
  P.CEPH_SETATTR_MODE &&& P.CEPH_SETATTR_UID = 0 ∧
  P.CEPH_SETATTR_MODE &&& P.CEPH_SETATTR_GID = 0 ∧
  P.CEPH_SETATTR_MODE &&& P.CEPH_SETATTR_MTIME = 0 ∧
  P.CEPH_SETATTR_MODE &&& P.CEPH_SETATTR_ATIME = 0 ∧
  P.CEPH_SETATTR_UID &&& P.CEPH_SETATTR_GID = 0 ∧
  P.CEPH_SETATTR_UID &&& P.CEPH_SETATTR_MTIME = 0 ∧
  P.CEPH_SETATTR_UID &&& P.CEPH_SETATTR_ATIME = 0 ∧
  P.CEPH_SETATTR_GID &&& P.CEPH_SETATTR_MTIME = 0 ∧
  P.CEPH_SETATTR_GID &&& P.CEPH_SETATTR_ATIME = 0 ∧
  P.CEPH_SETATTR_MTIME &&& P.CEPH_SETATTR_ATIME = 0

/-- A native bit selected by a boolean. -/
def sel (b : Bool) (v : Nat) : Nat := if b then v else 0

/-! ## Machine integers -/

/-- The value of an integer converted to the signed two's-complement type of
`w` bits. -/
def wrapSigned (w : Nat) (x : Int) : Int :=
  (x + 2 ^ (w - 1)) % 2 ^ w - 2 ^ (w - 1)

/-- Conversion to `jint` (signed, 32 bits). -/
def toJint (x : Int) : Int := wrapSigned 32 x

/-- Conversion to `jlong` and to `long` (signed, 64 bits). -/
def toJlong (x : Int) : Int := wrapSigned 64 x

/-- Conversion to an unsigned 32-bit type (`mode_t`, `uid_t`, `gid_t`). -/
def toU32 (x : Int) : Nat := (x % 2 ^ 32).toNat

/-! ## Data carriers and native structures -/

/-- The fields of the native `struct stat` that the adapter reads or writes.
`st_mode`, `st_uid` and `st_gid` are unsigned 32-bit values, the others are
`long`. -/
structure Stat where
  st_mode : Nat
  st_uid : Nat
  st_gid : Nat
  st_size : Int
  st_blksize : Int
  st_blocks : Int
  st_atime : Int
  st_mtime : Int
  deriving DecidableEq, Repr

/-- A `struct stat` whose fields are within the range of their C types. -/
def Stat.InRange (st : Stat) : Prop :=
  st.st_mode < 2 ^ 32 ∧ st.st_uid < 2 ^ 32 ∧ st.st_gid < 2 ^ 32 ∧
  (-2 ^ 63 ≤ st.st_size ∧ st.st_size < 2 ^ 63) ∧
  (-2 ^ 63 ≤ st.st_blksize ∧ st.st_blksize < 2 ^ 63) ∧
  (-2 ^ 63 ≤ st.st_blocks ∧ st.st_blocks < 2 ^ 63) ∧
  (-2 ^ 63 ≤ st.st_atime ∧ st.st_atime < 2 ^ 63) ∧
  (-2 ^ 63 ≤ st.st_mtime ∧ st.st_mtime < 2 ^ 63)

/-- The host stat carrier `com/ceph/rgw/CephStat`: the fields whose IDs
`setup_field_ids` caches (lines 136-146, 268-278). -/
structure CephStat where
  mode : Int
  uid : Int
  gid : Int
  size : Int
  blksize : Int
  blocks : Int
  a_time : Int
  m_time : Int
  is_file : Bool
  is_directory : Bool
  is_symlink : Bool
  deriving DecidableEq, Repr

/-- The fields of the native `struct rgw_statvfs` that `native_ceph_statfs`
reads; all are unsigned 64-bit values, `f_fsid0` is `f_fsid[0]`. -/
structure RgwStatVFS where
  f_bsize : Nat
  f_frsize : Nat
  f_blocks : Nat
  f_bavail : Nat
  f_files : Nat
  f_fsid0 : Nat
  f_namemax : Nat
  deriving DecidableEq, Repr

/-- The host statvfs carrier (lines 149-155, 286-292). -/
structure CephStatVFS where
  bsize : Int
  frsize : Int
  blocks : Int
  bavail : Int
  files : Int
  fsid : Int
  namemax : Int
  deriving DecidableEq, Repr

/-- Cached field IDs of the `int` fields of `CephStat`. -/
inductive IntFid where
  | cephstat_mode_fid
  | cephstat_uid_fid
  | cephstat_gid_fid
  deriving DecidableEq, Repr

/-- Cached field IDs of the `long` fields of `CephStat`. -/
inductive LongFid where
  | cephstat_size_fid
  | cephstat_blksize_fid
  | cephstat_blocks_fid
  | cephstat_a_time_fid
  | cephstat_m_time_fid
  deriving DecidableEq, Repr

/-- Cached field IDs of the `boolean` fields of `CephStat`. -/
inductive BoolFid where
  | cephstat_is_file_fid
  | cephstat_is_directory_fid
  | cephstat_is_symlink_fid
  deriving DecidableEq, Repr

/-- JNI `SetIntField` on a stat carrier; the value is a `jint`. -/
def SetIntField (c : CephStat) (fid : IntFid) (v : Int) : CephStat :=
  match fid with
  | .cephstat_mode_fid => { c with mode := v }
  | .cephstat_uid_fid => { c with uid := v }
  | .cephstat_gid_fid => { c with gid := v }

/-- JNI `SetLongField` on a stat carrier; the value is a `jlong`. -/
def SetLongField (c : CephStat) (fid : LongFid) (v : Int) : CephStat :=
  match fid with
  | .cephstat_size_fid => { c with size := v }
  | .cephstat_blksize_fid => { c with blksize := v }
  | .cephstat_blocks_fid => { c with blocks := v }
  | .cephstat_a_time_fid => { c with a_time := v }
  | .cephstat_m_time_fid => { c with m_time := v }

/-- JNI `SetBooleanField` on a stat carrier. -/
def SetBooleanField (c : CephStat) (fid : BoolFid) (v : Bool) : CephStat :=
  match fid with
  | .cephstat_is_file_fid => { c with is_file := v }
  | .cephstat_is_directory_fid => { c with is_directory := v }
  | .cephstat_is_symlink_fid => { c with is_symlink := v }

/-- JNI `GetIntField` on a stat carrier. -/
def GetIntField (c : CephStat) (fid : IntFid) : Int :=
  match fid with
  | .cephstat_mode_fid => c.mode
  | .cephstat_uid_fid => c.uid
  | .cephstat_gid_fid => c.gid

/-- JNI `GetLongField` on a stat carrier. -/
def GetLongField (c : CephStat) (fid : LongFid) : Int :=
  match fid with
  | .cephstat_size_fid => c.size
  | .cephstat_blksize_fid => c.blksize
  | .cephstat_blocks_fid => c.blocks
  | .cephstat_a_time_fid => c.a_time
  | .cephstat_m_time_fid => c.m_time

/-- Fill a stat carrier from a native `struct stat` (lines 645-663).  Line 647
names the field ID `cephstat_mod_fid`, which is not declared; it is read as the
declared `cephstat_mode_fid`.  The unsigned `st_mode`, `st_uid`, `st_gid` are
converted to the `jint` parameter of `SetIntField`; the products
`st_mtime * 1000` and `st_atime * 1000` are computed in `long`. -/
def fill_cephstat (P : Platform) (j_cephstat : CephStat) (st : Stat) : CephStat :=
  let c := SetIntField j_cephstat .cephstat_mode_fid (toJint st.st_mode)
  let c := SetIntField c .cephstat_uid_fid (toJint st.st_uid)
  let c := SetIntField c .cephstat_gid_fid (toJint st.st_gid)
  let c := SetLongField c .cephstat_size_fid st.st_size
  let c := SetLongField c .cephstat_blksize_fid st.st_blksize
  let c := SetLongField c .cephstat_blocks_fid st.st_blocks
  let c := SetLongField c .cephstat_m_time_fid (toJlong (st.st_mtime * 1000))
  let c := SetLongField c .cephstat_a_time_fid (toJlong (st.st_atime * 1000))
  let c := SetBooleanField c .cephstat_is_file_fid (if P.S_ISREG st.st_mode then true else false)
  let c := SetBooleanField c .cephstat_is_directory_fid
    (if P.S_ISDIR st.st_mode then true else false)
  let c := SetBooleanField c .cephstat_is_symlink_fid
    (if P.S_ISLNK st.st_mode then true else false)
  c

/-! ## The boundary: events, the JNI runtime, the gateway library -/

/-- Release mode of `ReleaseByteArrayElements`. -/
inductive ReleaseMode where
  | JNI_COMMIT
  | JNI_ABORT
  deriving DecidableEq, Repr

/-- What an adapter call does at its boundary, in program order.
`raised` is a `ThrowNew` that succeeded (the exception is pending in the host);
`fatalNotice` is the `printf` of the `THROW` macro after a failed `ThrowNew`.
A pin event carries the host reference and the C view the runtime returned
(`none` is `NULL`: nothing was pinned).  The `rgw_*` events are the calls into
the gateway library with the arguments the adapter passed. -/
inductive Event where
  | raised (cls msg : String)
  | fatalNotice
  | deleteLocalRef (cls : String)
  | getStringUTFChars (j : Option String) (c : Option String)
  | releaseStringUTFChars (j : Option String) (c : Option String)
  | getByteArrayElements (buf : List Int) (pinned : Bool)
  | releaseByteArrayElements (buf : List Int) (mode : ReleaseMode)
  | free (buf : List Int)
  | rgw_lookup (fs : Int) (path : Option String) (flags : Nat)
  | rgw_statfs (fs fh : Int)
  | rgw_readdir (fs fh : Int) (offset : Nat)
  | rgw_unlink (fs : Int) (path : Option String)
  | rgw_rename (fs src_fh : Int) (src_name : Option String) (dst_fh : Int)
      (dst_name : Option String)
  | rgw_mkdir (fs fh : Int) (name : Option String) (mode : Nat) (mask : Nat)
  | rgw_getattr (fs fh : Int)
  | rgw_setattr (fs fh : Int) (st : Stat) (mask : Nat)
  | rgw_open (fs fh : Int) (flags : Nat)
  | rgw_read (fs fh offset size : Int)
  | rgw_write (fs fh offset size : Int)
  | rgw_mount2 (cct : Int) (uid accessKey secretKey root : Option String)
  deriving DecidableEq, Repr

/-- The JNI runtime and the C++ allocator as the adapter sees them: which
classes `FindClass` resolves, the code `ThrowNew` returns, the C view (or
`NULL`) a pin returns, whether an allocation yields a non-null result, and
whether `SetObjectArrayElement` leaves an exception pending.
`getByteArrayElements` answers `none` for `NULL` and `some iscopy` otherwise;
`newString` is `new (std::nothrow) string(name)` of `readdir_cb`. -/
structure Host where
  findClass : String → Bool
  throwNew : String → String → Int
  getStringUTFChars : Option String → Option String
  getByteArrayElements : List Int → Option Bool
  newObjectArray : Nat → Bool
  newStringUTF : String → Bool
  setObjectArrayElementThrows : Nat → String → Bool
  newString : String → Bool

/-- A host runtime in which no runtime service fails. -/
def okHost : Host where
  findClass := fun _ => true
  throwNew := fun _ _ => 0
  getStringUTFChars := fun j => j
  getByteArrayElements := fun _ => some false
  newObjectArray := fun _ => true
  newStringUTF := fun _ => true
  setObjectArrayElementThrows := fun _ _ => false
  newString := fun _ => true

/-- Every exception carrier class resolves and `ThrowNew` succeeds. -/
def Host.ThrowsOk (h : Host) : Prop :=
  ∀ cls msg, h.findClass cls = true ∧ 0 ≤ h.throwNew cls msg

/-- What one call of `rgw_readdir` does: the names it hands to the callback in
order, the value it leaves in `offset`, the value it leaves in `eof`, and its
return code. -/
structure ReaddirBatch where
  names : List String
  offset : Nat
  eof : Bool
  rc : Int
  deriving DecidableEq, Repr

/-- The gateway library (`rgw_file.h`) as a stub: each function maps the
arguments the adapter passes to its return code and its out-parameters.  The
first argument is the mount (`rgw_fs`); a lookup is relative to its `root_fh`.
`rgw_lookup` returns the code and the handle stored in its out-parameter,
`rgw_read` and `rgw_write` return the code and the byte count stored in their
out-parameter. -/
structure Rgw where
  rgw_lookup : Int → Option String → Nat → Int × Int
  rgw_statfs : Int → Int → Int × RgwStatVFS
  rgw_readdir : Int → Int → Nat → ReaddirBatch
  rgw_unlink : Int → Option String → Int
  rgw_rename : Int → Int → Option String → Int → Option String → Int
  rgw_mkdir : Int → Int → Option String → Nat → Nat → Int
  rgw_getattr : Int → Int → Int × Stat
  rgw_setattr : Int → Int → Stat → Nat → Int
  rgw_open : Int → Int → Nat → Int
  rgw_read : Int → Int → Int → Int → Int × Nat
  rgw_write : Int → Int → Int → Int → Int × Nat
  rgw_mount2 : Int → Option String → Option String → Option String → Option String → Int × Int

/-! ## Observations on an event list -/

/-- The exceptions raised, as (class, message), in order. -/
def raisedOf : List Event → List (String × String)
  | [] => []
  | Event.raised cls msg :: es => (cls, msg) :: raisedOf es
  | _ :: es => raisedOf es

/-- An event that is a call into the gateway library. -/
def Event.isNative : Event → Bool
  | .rgw_lookup _ _ _ => true
  | .rgw_statfs _ _ => true
  | .rgw_readdir _ _ _ => true
  | .rgw_unlink _ _ => true
  | .rgw_rename _ _ _ _ _ => true
  | .rgw_mkdir _ _ _ _ _ => true
  | .rgw_getattr _ _ => true
  | .rgw_setattr _ _ _ _ => true
  | .rgw_open _ _ _ => true
  | .rgw_read _ _ _ _ => true
  | .rgw_write _ _ _ _ => true
  | .rgw_mount2 _ _ _ _ _ => true
  | _ => false

/-- An event that is a pin request (of a string or a byte array). -/
def Event.isPin : Event → Bool
  | .getStringUTFChars _ _ => true
  | .getByteArrayElements _ _ => true
  | _ => false

/-- The calls into the gateway library, in order. -/
def nativeCalls (log : List Event) : List Event := log.filter Event.isNative

/-- The pin requests, in order. -/
def pinCalls (log : List Event) : List Event := log.filter Event.isPin

/-- How many times the host string `j` was pinned (the runtime returned a view). -/
def pinCount (j : Option String) (log : List Event) : Nat :=
  log.countP (fun e => match e with
    | .getStringUTFChars j1 (some _) => j1 == j
    | _ => false)

/-- How many times the pinned view of the host string `j` was released. -/
def releaseCount (j : Option String) (log : List Event) : Nat :=
  log.countP (fun e => match e with
    | .releaseStringUTFChars j1 _ => j1 == j
    | _ => false)

/-! ## Exceptions and the error mapper (lines 163-236) -/

/-- The macro `THROW` (lines 163-173): look the class up; when it is found,
`ThrowNew`, print the fatal notice when that returns a negative code, and
delete the local reference. -/
def THROW (h : Host) (exception_name message : String) : List Event :=
  if h.findClass exception_name then
    (if h.throwNew exception_name message < 0 then [Event.fatalNotice]
     else [Event.raised exception_name message]) ++ [Event.deleteLocalRef exception_name]
  else []

def cephThrowNullArg (h : Host) (msg : String) : List Event :=
  THROW h "java/lang/NullPointerException" msg

def cephThrowOutOfMemory (h : Host) (msg : String) : List Event :=
  THROW h "java/lang/OutOfMemoryError" msg

def cephThrowInternal (h : Host) (msg : String) : List Event :=
  THROW h "java/lang/InternalError" msg

def cephThrowIndexBounds (h : Host) (msg : String) : List Event :=
  THROW h "java/lang/IndexOutOfBoundsException" msg

def cephThrowIllegalArg (h : Host) (msg : String) : List Event :=
  THROW h "java/lang/IllegalArgumentException" msg

def cephThrowFNF (h : Host) (msg : String) : List Event :=
  THROW h "java/io/FileNotFoundException" msg

def cephThrowFileExists (h : Host) (msg : String) : List Event :=
  THROW h CEPH_FILEEXISTS_CP msg

/-- The error mapper (lines 210-224): a `switch` on `rc` with the two cases
`-ENOENT` and `-EEXIST`, and the `IOException` with `strerror(-rc)` after it. -/
def handle_error (P : Platform) (h : Host) (rc : Int) : List Event :=
  if rc = -ENOENT then cephThrowFNF h ""
  else if rc = -EEXIST then cephThrowFileExists h ""
  else THROW h "java/io/IOException" (P.strerror (-rc))

/-! ## Adapter operations -/

/-- Cached field IDs of the statvfs carrier. -/
inductive VfsFid where
  | cephstatvfs_bsize_fid
  | cephstatvfs_frsize_fid
  | cephstatvfs_blocks_fid
  | cephstatvfs_bavail_fid
  | cephstatvfs_files_fid
  | cephstatvfs_fsid_fid
  | cephstatvfs_namemax_fid
  deriving DecidableEq, Repr

/-- JNI `SetLongField` on a statvfs carrier. -/
def SetLongFieldVFS (c : CephStatVFS) (fid : VfsFid) (v : Int) : CephStatVFS :=
  match fid with
  | .cephstatvfs_bsize_fid => { c with bsize := v }
  | .cephstatvfs_frsize_fid => { c with frsize := v }
  | .cephstatvfs_blocks_fid => { c with blocks := v }
  | .cephstatvfs_bavail_fid => { c with bavail := v }
  | .cephstatvfs_files_fid => { c with files := v }
  | .cephstatvfs_fsid_fid => { c with fsid := v }
  | .cephstatvfs_namemax_fid => { c with namemax := v }

/-- The adapter function `native_ceph_statfs` (lines 392-437).  Returns the
C return value, the events, and the carrier after the call. -/
def native_ceph_statfs (P : Platform) (h : Host) (rgw : Rgw) (j_rgw_fs : Int)
    (j_path : Option String) (j_cephstatvfs : Option CephStatVFS) :
    Int × List Event × Option CephStatVFS :=
  match j_path with
  | none => (-1, cephThrowNullArg h "@path is null", j_cephstatvfs)
  | some _ =>
    match j_cephstatvfs with
    | none => (-1, cephThrowNullArg h "@stat is null", none)
    | some vfs =>
      let c_path := h.getStringUTFChars j_path
      let log := [Event.getStringUTFChars j_path c_path]
      match c_path with
      | none => (-1, log ++ cephThrowInternal h "Failed to pin memory", some vfs)
      | some _ =>
        let r := rgw.rgw_lookup j_rgw_fs c_path P.RGW_LOOKUP_FLAG_NONE
        let rgw_fh := r.2
        let log := log ++ [Event.rgw_lookup j_rgw_fs c_path P.RGW_LOOKUP_FLAG_NONE]
        if r.1 < 0 then (r.1, log ++ handle_error P h r.1, some vfs)
        else
          let r := rgw.rgw_statfs j_rgw_fs rgw_fh
          let ret := r.1
          let vfs_st := r.2
          let log := log ++ [Event.rgw_statfs j_rgw_fs rgw_fh,
            Event.releaseStringUTFChars j_path c_path]
          if ret < 0 then (ret, log ++ handle_error P h ret, some vfs)
          else
            let c := SetLongFieldVFS vfs .cephstatvfs_bsize_fid (toJlong vfs_st.f_bsize)
            let c := SetLongFieldVFS c .cephstatvfs_frsize_fid (toJlong vfs_st.f_frsize)
            let c := SetLongFieldVFS c .cephstatvfs_blocks_fid (toJlong vfs_st.f_blocks)
            let c := SetLongFieldVFS c .cephstatvfs_bavail_fid (toJlong vfs_st.f_bavail)
            let c := SetLongFieldVFS c .cephstatvfs_files_fid (toJlong vfs_st.f_files)
            let c := SetLongFieldVFS c .cephstatvfs_fsid_fid (toJlong vfs_st.f_fsid0)
            let c := SetLongFieldVFS c .cephstatvfs_namemax_fid (toJlong vfs_st.f_namemax)
            (ret, log, some c)

/-- The readdir callback (lines 440-455) on the collector `contents`: returns
the continue flag and the collector after the call.  `compare` is zero exactly
on equal strings. -/
def readdir_cb (h : Host) (name : String) (contents : List String) : Bool × List String :=
  if h.newString name = false then (false, contents)
  else
    let contents := if name ≠ "." ∧ name ≠ ".." then contents ++ [name] else contents
    (true, contents)

/-- The library side of one `rgw_readdir` call: it hands the names of the batch
to the callback in order and stops at the first `false` answer. -/
def deliver (h : Host) : List String → List String → List String
  | [], contents => contents
  | name :: rest, contents =>
    let r := readdir_cb h name contents
    if r.1 then deliver h rest r.2 else r.2

/-- The loop `while (!eof)` of `native_ceph_listdir` (lines 486-494), entered
with `eof = false`; `fuel` bounds the number of iterations.  Returns the last
`ret`, the collector and the events, or `none` when the fuel runs out. -/
def readdirLoop (h : Host) (rgw : Rgw) (fs fh : Int) :
    Nat → Nat → List String → List Event → Option (Int × List String × List Event)
  | 0, _, _, _ => none
  | fuel + 1, offset, contents, log =>
    let b := rgw.rgw_readdir fs fh offset
    let contents := deliver h b.names contents
    let log := log ++ [Event.rgw_readdir fs fh offset]
    if b.rc < 0 then some (b.rc, contents, log)
    else if b.eof then some (b.rc, contents, log)
    else readdirLoop h rgw fs fh fuel b.offset contents log

/-- The loop that populates the host string array (lines 505-513), from slot
`i` on: `none` is the `goto out` exit (a string could not be created, or the
store left an exception pending). -/
def fillDirlist (h : Host) : List String → Nat → List String → Option (List String)
  | [], _, dirlist => some dirlist
  | it :: rest, i, dirlist =>
    if h.newStringUTF it = false then none
    else if h.setObjectArrayElementThrows i it then none
    else fillDirlist h rest (i + 1) (dirlist ++ [it])

/-- The adapter function `native_ceph_listdir` (lines 458-520).  The result is
`none` when the fuel of the readdir loop runs out; otherwise the returned array
(`none` for `NULL`) and the events. -/
def native_ceph_listdir (P : Platform) (h : Host) (rgw : Rgw) (fuel : Nat) (j_rgw_fs : Int)
    (j_path : Option String) : Option (Option (List String) × List Event) :=
  match j_path with
  | none => some (none, cephThrowNullArg h "@path is null")
  | some _ =>
    let c_path := h.getStringUTFChars j_path
    let log := [Event.getStringUTFChars j_path c_path]
    match c_path with
    | none => some (none, log ++ cephThrowInternal h "failed to pin memory")
    | some _ =>
      let r := rgw.rgw_lookup j_rgw_fs c_path P.RGW_LOOKUP_FLAG_NONE
      let rgw_fh := r.2
      let log := log ++ [Event.rgw_lookup j_rgw_fs c_path P.RGW_LOOKUP_FLAG_NONE]
      if r.1 < 0 then some (none, log ++ handle_error P h r.1)
      else
        match readdirLoop h rgw j_rgw_fs rgw_fh fuel 0 [] log with
        | none => none
        | some (ret, contents, log) =>
          if ret < 0 then
            some (none, log ++ handle_error P h ret ++
              [Event.releaseStringUTFChars j_path c_path])
          else if h.newObjectArray contents.length = false then
            some (none, log ++ [Event.releaseStringUTFChars j_path c_path])
          else
            match fillDirlist h contents 0 [] with
            | some dirlist => some (some dirlist, log)
            | none => some (none, log ++ [Event.releaseStringUTFChars j_path c_path])

/-- The adapter function `native_ceph_unlink` (lines 523-549). -/
def native_ceph_unlink (P : Platform) (h : Host) (rgw : Rgw) (j_rgw_fs : Int)
    (j_path : Option String) : Int × List Event :=
  match j_path with
  | none => (-1, cephThrowNullArg h "@path is null")
  | some _ =>
    let c_path := h.getStringUTFChars j_path
    let log := [Event.getStringUTFChars j_path c_path]
    match c_path with
    | none => (-1, log ++ cephThrowInternal h "failed to pin memory")
    | some _ =>
      let ret := rgw.rgw_unlink j_rgw_fs c_path
      let log := log ++ [Event.rgw_unlink j_rgw_fs c_path,
        Event.releaseStringUTFChars j_path c_path]
      let log := if ret < 0 then log ++ handle_error P h ret else log
      (ret, log)

/-- The adapter function `native_ceph_rename` (lines 552-601).  The body uses
`j_src_name`, which the parameter list of line 553 omits; it is a parameter
here, between `j_src_path` and `j_dst_path`. -/
def native_ceph_rename (P : Platform) (h : Host) (rgw : Rgw) (j_rgw_fs : Int)
    (j_src_path j_src_name j_dst_path j_dst_name : Option String) : Int × List Event :=
  match j_src_path with
  | none => (-1, cephThrowNullArg h "@src_path is null")
  | some _ =>
  match j_src_name with
  | none => (-1, cephThrowNullArg h "@src_name is null")
  | some _ =>
  match j_dst_path with
  | none => (-1, cephThrowNullArg h "@dst_path is null")
  | some _ =>
  match j_dst_name with
  | none => (-1, cephThrowNullArg h "@dst_name is null")
  | some _ =>
    let c_src_path := h.getStringUTFChars j_src_path
    let c_src_name := h.getStringUTFChars j_src_name
    let c_dst_path := h.getStringUTFChars j_dst_path
    let c_dst_name := h.getStringUTFChars j_dst_name
    let log := [Event.getStringUTFChars j_src_path c_src_path,
      Event.getStringUTFChars j_src_name c_src_name,
      Event.getStringUTFChars j_dst_path c_dst_path,
      Event.getStringUTFChars j_dst_name c_dst_name]
    let out := fun (ret : Int) (log : List Event) =>
      let log := log ++ [Event.releaseStringUTFChars j_src_path c_src_path,
        Event.releaseStringUTFChars j_src_name c_src_name,
        Event.releaseStringUTFChars j_dst_path c_dst_path,
        Event.releaseStringUTFChars j_dst_name c_dst_name]
      let log := if ret < 0 then log ++ handle_error P h ret else log
      (ret, log)
    let r := rgw.rgw_lookup j_rgw_fs c_src_path P.RGW_LOOKUP_FLAG_NONE
    let src_fh := r.2
    let log := log ++ [Event.rgw_lookup j_rgw_fs c_src_path P.RGW_LOOKUP_FLAG_NONE]
    if r.1 < 0 then out r.1 log
    else
      let r := rgw.rgw_lookup j_rgw_fs c_dst_path P.RGW_LOOKUP_FLAG_NONE
      let dst_fh := r.2
      let log := log ++ [Event.rgw_lookup j_rgw_fs c_dst_path P.RGW_LOOKUP_FLAG_NONE]
      if r.1 < 0 then out r.1 log
      else
        let ret := rgw.rgw_rename j_rgw_fs src_fh c_src_name dst_fh c_dst_name
        let log := log ++ [Event.rgw_rename j_rgw_fs src_fh c_src_name dst_fh c_dst_name]
        out ret log

/-- The adapter function `native_ceph_mkdirs` (lines 604-643). -/
def native_ceph_mkdirs (P : Platform) (h : Host) (rgw : Rgw) (j_rgw_fs : Int)
    (j_path j_name : Option String) (j_mode : Int) : Int × List Event :=
  match j_path with
  | none => (-1, cephThrowNullArg h "@path is null")
  | some _ =>
    let c_path := h.getStringUTFChars j_path
    let c_name := h.getStringUTFChars j_name
    let log := [Event.getStringUTFChars j_path c_path, Event.getStringUTFChars j_name c_name]
    match c_path with
    | none => (-1, log ++ cephThrowInternal h "failed to pin memory")
    | some _ =>
      let r := rgw.rgw_lookup j_rgw_fs c_path P.RGW_LOOKUP_FLAG_NONE
      let rgw_fh := r.2
      let log := log ++ [Event.rgw_lookup j_rgw_fs c_path P.RGW_LOOKUP_FLAG_NONE]
      if r.1 < 0 then (r.1, log ++ handle_error P h r.1)
      else
        let st_mode := toU32 j_mode
        let ret := rgw.rgw_mkdir j_rgw_fs rgw_fh c_name st_mode P.RGW_SETATTR_MODE
        let log := log ++ [Event.rgw_mkdir j_rgw_fs rgw_fh c_name st_mode P.RGW_SETATTR_MODE,
          Event.releaseStringUTFChars j_path c_path,
          Event.releaseStringUTFChars j_name c_name]
        let log := if ret ≠ 0 then log ++ handle_error P h ret else log
        (ret, log)

/-- The adapter function `native_ceph_lstat` (lines 665-701).  The carrier
parameter is declared `jint j_cephstat` on line 666 and used as the carrier
object; it is the carrier here.  Returns the C return value, the events, and
the carrier after the call. -/
def native_ceph_lstat (P : Platform) (h : Host) (rgw : Rgw) (j_rgw_fs : Int)
    (j_path j_name : Option String) (j_cephstat : Option CephStat) :
    Int × List Event × Option CephStat :=
  match j_path with
  | none => (-1, cephThrowNullArg h "@path is null", j_cephstat)
  | some _ =>
    match j_cephstat with
    | none => (-1, cephThrowNullArg h "@stat is null", none)
    | some c =>
      let c_path := h.getStringUTFChars j_path
      let c_name := h.getStringUTFChars j_name
      let r := rgw.rgw_lookup j_rgw_fs c_path P.RGW_LOOKUP_FLAG_RCB
      let rgw_fh := r.2
      let log := [Event.getStringUTFChars j_path c_path,
        Event.getStringUTFChars j_name c_name,
        Event.rgw_lookup j_rgw_fs c_path P.RGW_LOOKUP_FLAG_RCB,
        Event.releaseStringUTFChars j_path c_path]
      if r.1 < 0 then (r.1, log ++ handle_error P h r.1, some c)
      else
        let r := rgw.rgw_getattr j_rgw_fs rgw_fh
        let ret := r.1
        let st := r.2
        let log := log ++ [Event.rgw_getattr j_rgw_fs rgw_fh]
        let c := if ret = 0 then fill_cephstat P c st else c
        let log := if ret < 0 then log ++ handle_error P h ret else log
        (ret, log, some c)

/-- The adapter function `native_ceph_setattr` (lines 703-749).  The native
`struct stat` is zeroed and then filled from the carrier; the divisions by
1000 are C divisions of `long` values (truncation toward zero). -/
def native_ceph_setattr (P : Platform) (h : Host) (rgw : Rgw) (j_rgw_fs : Int)
    (j_path : Option String) (j_cephstat : Option CephStat) (j_mask : Int) :
    Int × List Event :=
  let mask := fixup_attr_mask P j_mask
  match j_path with
  | none => (-1, cephThrowNullArg h "@path is null")
  | some _ =>
    match j_cephstat with
    | none => (-1, cephThrowNullArg h "@stat is null")
    | some c =>
      let c_path := h.getStringUTFChars j_path
      let log := [Event.getStringUTFChars j_path c_path]
      match c_path with
      | none => (-1, log ++ cephThrowInternal h "Failed to pin memory")
      | some _ =>
        let r := rgw.rgw_lookup j_rgw_fs c_path P.RGW_LOOKUP_FLAG_NONE
        let rgw_fh := r.2
        let log := log ++ [Event.rgw_lookup j_rgw_fs c_path P.RGW_LOOKUP_FLAG_NONE]
        if r.1 < 0 then (r.1, log ++ handle_error P h r.1)
        else
          let mtime_msec := GetLongField c .cephstat_m_time_fid
          let atime_msec := GetLongField c .cephstat_a_time_fid
          let st : Stat :=
            { st_mode := toU32 (GetIntField c .cephstat_mode_fid)
              st_uid := toU32 (GetIntField c .cephstat_uid_fid)
              st_gid := toU32 (GetIntField c .cephstat_gid_fid)
              st_size := 0
              st_blksize := 0
              st_blocks := 0
              st_mtime := Int.tdiv mtime_msec 1000
              st_atime := Int.tdiv atime_msec 1000 }
          let ret := rgw.rgw_setattr j_rgw_fs rgw_fh st mask
          let log := log ++ [Event.rgw_setattr j_rgw_fs rgw_fh st mask,
            Event.releaseStringUTFChars j_path c_path]
          let log := if ret < 0 then log ++ handle_error P h ret else log
          (ret, log)

/-- The lookup flags `native_ceph_open` computes (lines 759, 769-770). -/
def open_lookup_flags (P : Platform) (j_flags : Int) : Nat :=
  let lookup_flags := P.RGW_LOOKUP_FLAG_FILE
  if Int.land j_flags P.JAVA_O_CREATE ≠ 0 then lookup_flags ||| P.RGW_LOOKUP_FLAG_CREATE
  else lookup_flags

/-- The adapter function `native_ceph_open` (lines 751-788).  The handle the
lookup stored is returned as the `jlong` result. -/
def native_ceph_open (P : Platform) (h : Host) (rgw : Rgw) (j_rgw_fs : Int)
    (j_path : Option String) (j_flags : Int) (j_mode : Int) : Int × List Event :=
  let flags := fixup_open_flags P j_flags
  let _ := j_mode
  match j_path with
  | none => (-1, cephThrowNullArg h "@path is null")
  | some _ =>
    let c_path := h.getStringUTFChars j_path
    let log := [Event.getStringUTFChars j_path c_path]
    match c_path with
    | none => (-1, log ++ cephThrowInternal h "Failed to pin memory")
    | some _ =>
      let lookup_flags := open_lookup_flags P j_flags
      let r := rgw.rgw_lookup j_rgw_fs c_path lookup_flags
      let rgw_fh := r.2
      let log := log ++ [Event.rgw_lookup j_rgw_fs c_path lookup_flags]
      if r.1 < 0 then (r.1, log ++ handle_error P h r.1)
      else
        let ret := rgw.rgw_open j_rgw_fs rgw_fh flags
        let log := log ++ [Event.rgw_open j_rgw_fs rgw_fh flags,
          Event.releaseStringUTFChars j_path c_path]
        let log := if ret < 0 then log ++ handle_error P h ret else log
        (rgw_fh, log)

/-- The adapter function `native_ceph_read` (lines 807-846).  The first bounds
check is `CHECK_ARG_BOUNDS(j_size, ...)`: its condition is `j_size` itself,
true for every non-zero value. -/
def native_ceph_read (P : Platform) (h : Host) (rgw : Rgw) (j_rgw_fs j_fd j_offset : Int)
    (j_buf : Option (List Int)) (j_size : Int) : Int × List Event :=
  match j_buf with
  | none => (-1, cephThrowNullArg h "@buf is null")
  | some buf =>
    if j_size ≠ 0 then (-1, cephThrowIndexBounds h "@size is negative")
    else
      let buf_size : Int := buf.length
      if j_size > buf_size then (-1, cephThrowIndexBounds h "@size > @buf.length")
      else
        match h.getByteArrayElements buf with
        | none => (-1, [Event.getByteArrayElements buf false] ++
            cephThrowInternal h "failed to pin memory")
        | some iscopy =>
          let log := [Event.getByteArrayElements buf true]
          let r := rgw.rgw_read j_rgw_fs j_fd j_offset j_size
          let ret := r.1
          let log := log ++ [Event.rgw_read j_rgw_fs j_fd j_offset j_size]
          let bytes_read := if ret < 0 then 0 else r.2
          let log := if ret < 0 then log ++ handle_error P h (toJint ret) else log
          let log := log ++ [Event.releaseByteArrayElements buf .JNI_COMMIT]
          let log := if iscopy then log ++ [Event.free buf] else log
          (toJlong bytes_read, log)

/-- The adapter function `native_ceph_write` (lines 848-882).  Its first bounds
check is `CHECK_ARG_BOUNDS(j_size < 0, ...)`. -/
def native_ceph_write (P : Platform) (h : Host) (rgw : Rgw) (j_rgw_fs j_fd j_offset : Int)
    (j_buf : Option (List Int)) (j_size : Int) : Int × List Event :=
  match j_buf with
  | none => (-1, cephThrowNullArg h "@buf is null")
  | some buf =>
    if j_size < 0 then (-1, cephThrowIndexBounds h "@size is negative")
    else
      let buf_size : Int := buf.length
      if j_size > buf_size then (-1, cephThrowIndexBounds h "@size > @buff.length")
      else
        match h.getByteArrayElements buf with
        | none => (-1, [Event.getByteArrayElements buf false] ++
            cephThrowInternal h "failed to pin memory")
        | some _ =>
          let log := [Event.getByteArrayElements buf true]
          let r := rgw.rgw_write j_rgw_fs j_fd j_offset j_size
          let ret := r.1
          let bytes_written := r.2
          let log := log ++ [Event.rgw_write j_rgw_fs j_fd j_offset j_size]
          let log := if ret < 0 then log ++ handle_error P h (toJint ret) else log
          let log := log ++ [Event.releaseByteArrayElements buf .JNI_ABORT]
          (toJlong bytes_written, log)

/-! ## A stubbed gateway for the scenarios of the specification -/

/-- A native stat of a regular file, mode `0100644`. -/
def scenarioStat : Stat where
  st_mode := 33188
  st_uid := 1000
  st_gid := 1000
  st_size := 3
  st_blksize := 4096
  st_blocks := 8
  st_atime := 1700000000
  st_mtime := 1700000001

/-- The stub of the end-to-end scenarios: looking up `/nope` fails with
`-ENOENT` and every other lookup stores the handle 4097; one readdir call
yields `.`, `a`, `..`, `b` and sets `eof`; a read reports 8 bytes with `rc = 0`;
a write reports 3 bytes; `mkdir` fails with `-EEXIST`. -/
def scenarioRgw : Rgw where
  rgw_lookup := fun _ path _ => if path = some "/nope" then (-2, 0) else (0, 4097)
  rgw_statfs := fun _ _ => (0, ⟨4096, 4096, 1000, 500, 10, 7, 255⟩)
  rgw_readdir := fun _ _ _ => ⟨[".", "a", "..", "b"], 4, true, 0⟩
  rgw_unlink := fun _ _ => 0
  rgw_rename := fun _ _ _ _ _ => 0
  rgw_mkdir := fun _ _ _ _ _ => -17
  rgw_getattr := fun _ _ => (0, scenarioStat)
  rgw_setattr := fun _ _ _ _ => 0
  rgw_open := fun _ _ _ => 0
  rgw_read := fun _ _ _ _ => (0, 8)
  rgw_write := fun _ _ _ _ => (0, 3)
  rgw_mount2 := fun _ _ _ _ _ => (0, 4096)

/-- A carrier with every field cleared. -/
def emptyCephStat : CephStat :=
  ⟨0, 0, 0, 0, 0, 0, 0, 0, false, false, false⟩

/-- The scenario stub with a native `open` that fails with `-EACCES`. -/
def openFailsRgw : Rgw :=
  { scenarioRgw with rgw_open := fun _ _ _ => -13 }

/-- A call was rejected for a null argument before it reached the boundary:
exactly one exception, a `NullPointerException`, is pending, and the call made
no pin request and no call into the gateway library. -/
def RejectedNull (log : List Event) : Prop :=
  (∃ msg, raisedOf log = [("java/lang/NullPointerException", msg)]) ∧
  nativeCalls log = [] ∧ pinCalls log = []

/-! ## The sequence of readdir calls of one listdir -/

/-- The value of the variable `offset` before readdir call number `i` (from 0)
of a loop that starts with `offset = o`: each call leaves the next value. -/
def offsetAt (rgw : Rgw) (fs fh : Int) (o : Nat) : Nat → Nat
  | 0 => o
  | i + 1 => offsetAt rgw fs fh (rgw.rgw_readdir fs fh o).offset i

/-- What readdir call number `i` of the loop does. -/
def batchAt (rgw : Rgw) (fs fh : Int) (o : Nat) (i : Nat) : ReaddirBatch :=
  rgw.rgw_readdir fs fh (offsetAt rgw fs fh o i)

/-- The names the library hands to the callback in the calls 0 to `n`, in order. -/
def yieldedNames (rgw : Rgw) (fs fh : Int) (o : Nat) : Nat → List String
  | 0 => (rgw.rgw_readdir fs fh o).names
  | n + 1 =>
    (rgw.rgw_readdir fs fh o).names ++
      yieldedNames rgw fs fh (rgw.rgw_readdir fs fh o).offset n

/-- A name other than `.` and `..`. -/
def notDotEntry (name : String) : Bool := decide (name ≠ "." ∧ name ≠ "..")

/-- No allocation of the host runtime fails: the string of the callback, the
result array, each host string, and each store into the array. -/
def Host.AllocatesOk (h : Host) : Prop :=
  (∀ s, h.newString s = true) ∧ (∀ k, h.newObjectArray k = true) ∧
  (∀ s, h.newStringUTF s = true) ∧ (∀ i s, h.setObjectArrayElementThrows i s = false)

/-! ## Mount, and further observations -/

/-- The adapter function `native_ceph_mount` (lines 332-357); `cct` is the
process context of line 157, and `rgw_mount2` returns its code and the mount
it stored in its out-parameter.  The function has no `CHECK_ARG_NULL`: each of
the four host strings goes to `GetStringUTFChars` as it is, the views go to
`rgw_mount2`, and the views of the first three are released. -/
def native_ceph_mount (P : Platform) (h : Host) (rgw : Rgw) (cct : Int)
    (j_uid j_accessKey j_secretKey j_root : Option String) : Int × List Event :=
  let c_uid := h.getStringUTFChars j_uid
  let c_accessKey := h.getStringUTFChars j_accessKey
  let c_secretKey := h.getStringUTFChars j_secretKey
  let c_root := h.getStringUTFChars j_root
  let r := rgw.rgw_mount2 cct c_uid c_accessKey c_secretKey c_root
  let ret := r.1
  let rgw_fs := r.2
  let log := [Event.getStringUTFChars j_uid c_uid,
    Event.getStringUTFChars j_accessKey c_accessKey,
    Event.getStringUTFChars j_secretKey c_secretKey,
    Event.getStringUTFChars j_root c_root,
    Event.rgw_mount2 cct c_uid c_accessKey c_secretKey c_root,
    Event.releaseStringUTFChars j_uid c_uid,
    Event.releaseStringUTFChars j_accessKey c_accessKey,
    Event.releaseStringUTFChars j_secretKey c_secretKey]
  if ret ≠ 0 then (ret, log ++ handle_error P h ret)
  else (rgw_fs, log)

/-- The native stats passed to `rgw_setattr`, in order. -/
def setattrStats : List Event → List Stat
  | [] => []
  | Event.rgw_setattr _ _ st _ :: es => st :: setattrStats es
  | _ :: es => setattrStats es

/-- The flags passed to `rgw_lookup`, in order. -/
def lookupFlags : List Event → List Nat
  | [] => []
  | Event.rgw_lookup _ _ flags :: es => flags :: lookupFlags es
  | _ :: es => lookupFlags es

/-- A platform whose native open flags have the values of the host constants. -/
def hostValuedPlatform : Platform :=
  { linuxPlatform with
    O_RDONLY := 1
    O_RDWR := 2
    O_APPEND := 4
    O_CREAT := 8
    O_TRUNC := 16
    O_EXCL := 32
    O_WRONLY := 64
    O_DIRECTORY := 128 }

/-! ## Bit-level lemmas -/

theorem land_two_pow_ne_zero (x : Int) (k : Nat) :
    Int.land x ((2 ^ k : Nat) : Int) ≠ 0 ↔ x.testBit k = true := by
  cases x with
  | ofNat m =>
    show ((m &&& 2 ^ k : Nat) : Int) ≠ 0 ↔ m.testBit k = true
    rw [Nat.and_two_pow]
    cases h : m.testBit k <;> simp
  | negSucc m =>
    show ((Nat.ldiff (2 ^ k) m : Nat) : Int) ≠ 0 ↔ (!m.testBit k) = true
    have key : Nat.ldiff (2 ^ k) m = (!m.testBit k).toNat * 2 ^ k := by
      apply Nat.eq_of_testBit_eq
      intro i
      rw [Nat.testBit_ldiff, Nat.testBit_two_pow]
      cases h : m.testBit k
      · by_cases hki : k = i
        · subst hki; simp [h, Nat.testBit_two_pow]
        · simp [hki, Nat.testBit_two_pow]
      · by_cases hki : k = i
        · subst hki; simp [h]
        · simp [hki]
    rw [key]
    cases h : m.testBit k <;> simp

theorem FIXUP_eq_sel (x : Int) (k : Nat) (v ret : Nat) :
    FIXUP x ((2 ^ k : Nat) : Int) v ret = ret ||| sel (x.testBit k) v := by
  unfold FIXUP sel
  by_cases h : x.testBit k = true
  · rw [if_pos ((land_two_pow_ne_zero x k).2 h), if_pos h]
  · rw [if_neg (fun hn => h ((land_two_pow_ne_zero x k).1 hn)), if_neg h, Nat.or_zero]

theorem sel_or (a b : Bool) (v : Nat) : sel (a || b) v = sel a v ||| sel b v := by
  cases a <;> cases b <;> simp [sel]

theorem sel_and_self (b : Bool) (v : Nat) : sel b v &&& v = sel b v := by
  cases b <;> simp [sel]

theorem sel_and_disjoint (b : Bool) (v w : Nat) (h : v &&& w = 0) : sel b v &&& w = 0 := by
  cases b <;> simp [sel, h]

theorem sel_or_self (b : Bool) (v : Nat) : sel b v ||| v = v := by
  cases b <;> simp [sel]

/-- The open-flag translator as an OR of selected native bits. -/
theorem fixup_open_flags_eq (P : Platform) (a : Int) :
    fixup_open_flags P a =
      sel (a.testBit 0) P.O_RDONLY ||| sel (a.testBit 1) P.O_RDWR |||
      sel (a.testBit 2) P.O_APPEND ||| sel (a.testBit 3) P.O_CREAT |||
      sel (a.testBit 4) P.O_TRUNC ||| sel (a.testBit 5) P.O_EXCL |||
      sel (a.testBit 6) P.O_WRONLY ||| sel (a.testBit 7) P.O_DIRECTORY := by
  have h0 := FIXUP_eq_sel a 0
  have h1 := FIXUP_eq_sel a 1
  have h2 := FIXUP_eq_sel a 2
  have h3 := FIXUP_eq_sel a 3
  have h4 := FIXUP_eq_sel a 4
  have h5 := FIXUP_eq_sel a 5
  have h6 := FIXUP_eq_sel a 6
  have h7 := FIXUP_eq_sel a 7
  simp only [fixup_open_flags, JAVA_O_RDONLY, JAVA_O_RDWR, JAVA_O_APPEND, JAVA_O_CREAT,
    JAVA_O_TRUNC, JAVA_O_EXCL, JAVA_O_WRONLY, JAVA_O_DIRECTORY]
  norm_num at h0 h1 h2 h3 h4 h5 h6 h7
  rw [h0, h1, h2, h3, h4, h5, h6, h7, Nat.zero_or]

/-- The setattr-mask translator as an OR of selected native bits. -/
theorem fixup_attr_mask_eq (P : Platform) (m : Int) :
    fixup_attr_mask P m =
      sel (m.testBit 0) P.CEPH_SETATTR_MODE ||| sel (m.testBit 1) P.CEPH_SETATTR_UID |||
      sel (m.testBit 2) P.CEPH_SETATTR_GID ||| sel (m.testBit 3) P.CEPH_SETATTR_MTIME |||
      sel (m.testBit 4) P.CEPH_SETATTR_ATIME := by
  have h0 := FIXUP_eq_sel m 0
  have h1 := FIXUP_eq_sel m 1
  have h2 := FIXUP_eq_sel m 2
  have h3 := FIXUP_eq_sel m 3
  have h4 := FIXUP_eq_sel m 4
  simp only [fixup_attr_mask, JAVA_SETATTR_MODE, JAVA_SETATTR_UID, JAVA_SETATTR_GID,
    JAVA_SETATTR_MTIME, JAVA_SETATTR_ATIME]
  norm_num at h0 h1 h2 h3 h4
  rw [h0, h1, h2, h3, h4, Nat.zero_or]

theorem sel_testBit (b : Bool) (v i : Nat) : (sel b v).testBit i = (b && v.testBit i) := by
  cases b <;> simp [sel]

theorem testBit_land_31 (m : Int) (i : Nat) (hi : i < 5) :
    (Int.land m 31).testBit i = m.testBit i := by
  rw [Int.testBit_land]
  have h31 : (31 : Int).testBit i = true := by
    show Nat.testBit 31 i = true
    interval_cases i <;> decide
  rw [h31, Bool.and_true]

/-- C6: the open-flag translator distributes over bitwise OR of host flag
words, and it is monotone: when every bit of `a` is a bit of `b`, every bit of
the translation of `a` is a bit of the translation of `b`. -/
theorem fixup_open_flags_or_distrib (P : Platform) (a b : Int) :
    fixup_open_flags P (Int.lor a b) = fixup_open_flags P a ||| fixup_open_flags P b ∧
    ((∀ k, a.testBit k = true → b.testBit k = true) →
      ∀ k, (fixup_open_flags P a).testBit k = true →
        (fixup_open_flags P b).testBit k = true) := by
  have hd : fixup_open_flags P (Int.lor a b) =
      fixup_open_flags P a ||| fixup_open_flags P b := by
    simp only [fixup_open_flags_eq, Int.testBit_lor, sel_or]
    ac_rfl
  refine ⟨hd, fun hsub k hk => ?_⟩
  have hab : ∀ i, (a.testBit i || b.testBit i) = b.testBit i := by
    intro i
    cases ha : a.testBit i
    · simp
    · simp [hsub i ha]
  have hb : fixup_open_flags P (Int.lor a b) = fixup_open_flags P b := by
    simp only [fixup_open_flags_eq, Int.testBit_lor, hab]
  rw [← hb, hd, Nat.testBit_or, hk, Bool.true_or]

/-- The translator applied to `CREAT` and to `CREAT|RDONLY` on the Linux values. -/
theorem fixup_open_flags_or_distrib_witness :
    (∀ k, (8 : Int).testBit k = true → (9 : Int).testBit k = true) ∧
    (∀ k, (fixup_open_flags linuxPlatform 8).testBit k = true →
        (fixup_open_flags linuxPlatform 9).testBit k = true) :=
  have h : ∀ k, (8 : Int).testBit k = true → (9 : Int).testBit k = true := by
    intro k hk
    have h9 : (9 : Int) = Int.lor 8 1 := by decide
    rw [h9, Int.testBit_lor, hk, Bool.true_or]
  ⟨h, (fixup_open_flags_or_distrib linuxPlatform 8 9).2 h⟩

/-- C7: when the five native setattr bits are distinct bits, the mask
translator sets the native bit of a table entry exactly when the paired host
bit (1, 2, 4, 8, 16, that is bit 0 to bit 4) is present, sets no bit outside
the five native bits, and ignores every host bit outside the table. -/
theorem fixup_attr_mask_table (P : Platform) (hP : P.AttrBitsDistinct) (m : Int) :
    (fixup_attr_mask P m &&& P.CEPH_SETATTR_MODE = P.CEPH_SETATTR_MODE ↔ m.testBit 0 = true) ∧
    (fixup_attr_mask P m &&& P.CEPH_SETATTR_UID = P.CEPH_SETATTR_UID ↔ m.testBit 1 = true) ∧
    (fixup_attr_mask P m &&& P.CEPH_SETATTR_GID = P.CEPH_SETATTR_GID ↔ m.testBit 2 = true) ∧
    (fixup_attr_mask P m &&& P.CEPH_SETATTR_MTIME = P.CEPH_SETATTR_MTIME ↔ m.testBit 3 = true) ∧
    (fixup_attr_mask P m &&& P.CEPH_SETATTR_ATIME = P.CEPH_SETATTR_ATIME ↔ m.testBit 4 = true) ∧
    fixup_attr_mask P m &&&
      (P.CEPH_SETATTR_MODE ||| P.CEPH_SETATTR_UID ||| P.CEPH_SETATTR_GID |||
        P.CEPH_SETATTR_MTIME ||| P.CEPH_SETATTR_ATIME) = fixup_attr_mask P m ∧
    fixup_attr_mask P m = fixup_attr_mask P (Int.land m 31) := by
  obtain ⟨n0, n1, n2, n3, n4, d01, d02, d03, d04, d12, d13, d14, d23, d24, d34⟩ := hP
  have c10 : P.CEPH_SETATTR_UID &&& P.CEPH_SETATTR_MODE = 0 := by rw [Nat.and_comm]; exact d01
  have c20 : P.CEPH_SETATTR_GID &&& P.CEPH_SETATTR_MODE = 0 := by rw [Nat.and_comm]; exact d02
  have c30 : P.CEPH_SETATTR_MTIME &&& P.CEPH_SETATTR_MODE = 0 := by rw [Nat.and_comm]; exact d03
  have c40 : P.CEPH_SETATTR_ATIME &&& P.CEPH_SETATTR_MODE = 0 := by rw [Nat.and_comm]; exact d04
  have c21 : P.CEPH_SETATTR_GID &&& P.CEPH_SETATTR_UID = 0 := by rw [Nat.and_comm]; exact d12
  have c31 : P.CEPH_SETATTR_MTIME &&& P.CEPH_SETATTR_UID = 0 := by rw [Nat.and_comm]; exact d13
  have c41 : P.CEPH_SETATTR_ATIME &&& P.CEPH_SETATTR_UID = 0 := by rw [Nat.and_comm]; exact d14
  have c32 : P.CEPH_SETATTR_MTIME &&& P.CEPH_SETATTR_GID = 0 := by rw [Nat.and_comm]; exact d23
  have c42 : P.CEPH_SETATTR_ATIME &&& P.CEPH_SETATTR_GID = 0 := by rw [Nat.and_comm]; exact d24
  have c43 : P.CEPH_SETATTR_ATIME &&& P.CEPH_SETATTR_MTIME = 0 := by rw [Nat.and_comm]; exact d34
  have hsel : ∀ (b : Bool) (v : Nat), v ≠ 0 → (sel b v = v ↔ b = true) := by
    intro b v hv
    cases b
    · simp [sel, Ne.symm hv]
    · simp [sel]
  refine ⟨?_, ?_, ?_, ?_, ?_, ?_, ?_⟩
  · rw [fixup_attr_mask_eq]
    simp only [Nat.and_distrib_right, sel_and_self, sel_and_disjoint _ _ _ c10,
      sel_and_disjoint _ _ _ c20, sel_and_disjoint _ _ _ c30, sel_and_disjoint _ _ _ c40,
      Nat.or_zero]
    exact hsel _ _ n0
  · rw [fixup_attr_mask_eq]
    simp only [Nat.and_distrib_right, sel_and_self, sel_and_disjoint _ _ _ d01,
      sel_and_disjoint _ _ _ c21, sel_and_disjoint _ _ _ c31, sel_and_disjoint _ _ _ c41,
      Nat.or_zero, Nat.zero_or]
    exact hsel _ _ n1
  · rw [fixup_attr_mask_eq]
    simp only [Nat.and_distrib_right, sel_and_self, sel_and_disjoint _ _ _ d02,
      sel_and_disjoint _ _ _ d12, sel_and_disjoint _ _ _ c32, sel_and_disjoint _ _ _ c42,
      Nat.or_zero, Nat.zero_or]
    exact hsel _ _ n2
  · rw [fixup_attr_mask_eq]
    simp only [Nat.and_distrib_right, sel_and_self, sel_and_disjoint _ _ _ d03,
      sel_and_disjoint _ _ _ d13, sel_and_disjoint _ _ _ d23, sel_and_disjoint _ _ _ c43,
      Nat.or_zero, Nat.zero_or]
    exact hsel _ _ n3
  · rw [fixup_attr_mask_eq]
    simp only [Nat.and_distrib_right, sel_and_self, sel_and_disjoint _ _ _ d04,
      sel_and_disjoint _ _ _ d14, sel_and_disjoint _ _ _ d24, sel_and_disjoint _ _ _ d34,
      Nat.or_zero, Nat.zero_or]
    exact hsel _ _ n4
  · rw [fixup_attr_mask_eq]
    apply Nat.eq_of_testBit_eq
    intro i
    simp only [Nat.testBit_and, Nat.testBit_or, sel_testBit]
    cases m.testBit 0 <;> cases m.testBit 1 <;> cases m.testBit 2 <;> cases m.testBit 3 <;>
      cases m.testBit 4 <;> cases P.CEPH_SETATTR_MODE.testBit i <;>
      cases P.CEPH_SETATTR_UID.testBit i <;> cases P.CEPH_SETATTR_GID.testBit i <;>
      cases P.CEPH_SETATTR_MTIME.testBit i <;> cases P.CEPH_SETATTR_ATIME.testBit i <;> rfl
  · simp only [fixup_attr_mask_eq]
    rw [testBit_land_31 m 0 (by decide), testBit_land_31 m 1 (by decide),
      testBit_land_31 m 2 (by decide), testBit_land_31 m 3 (by decide),
      testBit_land_31 m 4 (by decide)]

/-- The table property on the Linux values, for the host mask `MODE|MTIME|64`. -/
theorem fixup_attr_mask_table_witness :
    linuxPlatform.AttrBitsDistinct ∧
    fixup_attr_mask linuxPlatform 73 = fixup_attr_mask linuxPlatform (Int.land 73 31) :=
  have h : linuxPlatform.AttrBitsDistinct := by
    simp only [Platform.AttrBitsDistinct, linuxPlatform]
    decide
  ⟨h, (fixup_attr_mask_table linuxPlatform h 73).2.2.2.2.2.2⟩

/-! ## The error mapper -/

theorem THROW_ok (h : Host) (hh : h.ThrowsOk) (cls msg : String) :
    THROW h cls msg = [Event.raised cls msg, Event.deleteLocalRef cls] := by
  obtain ⟨hc, ht⟩ := hh cls msg
  unfold THROW
  rw [if_pos hc, if_neg (not_lt.mpr ht)]
  rfl

theorem okHost_throwsOk : okHost.ThrowsOk := by
  intro cls msg
  exact ⟨rfl, le_refl _⟩

theorem raisedOf_append (l1 l2 : List Event) :
    raisedOf (l1 ++ l2) = raisedOf l1 ++ raisedOf l2 := by
  induction l1 with
  | nil => rfl
  | cons e es ih =>
    cases e <;> simp [raisedOf, ih]

theorem raisedOf_THROW (h : Host) (hh : h.ThrowsOk) (cls msg : String) :
    raisedOf (THROW h cls msg) = [(cls, msg)] := by
  rw [THROW_ok h hh]
  rfl

/-- What the error mapper raises for any `rc`, in a host that resolves the
exception carriers. -/
theorem raisedOf_handle_error (P : Platform) (h : Host) (hh : h.ThrowsOk) (rc : Int) :
    raisedOf (handle_error P h rc) =
      [if rc = -ENOENT then ("java/io/FileNotFoundException", "")
       else if rc = -EEXIST then (CEPH_FILEEXISTS_CP, "")
       else ("java/io/IOException", P.strerror (-rc))] := by
  unfold handle_error cephThrowFNF cephThrowFileExists
  split_ifs <;> exact raisedOf_THROW h hh _ _

/-- C2: in a host that resolves the exception carriers, the error mapper raises,
for a negative `rc`, exactly one exception: file-not-found for `-ENOENT`,
file-already-exists for `-EEXIST`, and otherwise the generic I/O exception
with the message `strerror(-rc)`. -/
theorem handle_error_negative (P : Platform) (h : Host) (hh : h.ThrowsOk) (rc : Int)
    (_hrc : rc < 0) :
    raisedOf (handle_error P h rc) =
      [if rc = -ENOENT then ("java/io/FileNotFoundException", "")
       else if rc = -EEXIST then (CEPH_FILEEXISTS_CP, "")
       else ("java/io/IOException", P.strerror (-rc))] :=
  raisedOf_handle_error P h hh rc

/-- The mapper at `-ENOENT`, `-EEXIST` and `-EIO` in the scenario host. -/
theorem handle_error_negative_witness :
    raisedOf (handle_error linuxPlatform okHost (-2)) =
      [("java/io/FileNotFoundException", "")] ∧
    raisedOf (handle_error linuxPlatform okHost (-17)) =
      [("com/ceph/rgw/CephFileAlreadyExistsException", "")] ∧
    raisedOf (handle_error linuxPlatform okHost (-5)) =
      [("java/io/IOException", "Input/output error")] :=
  ⟨handle_error_negative linuxPlatform okHost okHost_throwsOk (-2) (by decide),
   handle_error_negative linuxPlatform okHost okHost_throwsOk (-17) (by decide),
   handle_error_negative linuxPlatform okHost okHost_throwsOk (-5) (by decide)⟩

theorem toJint_of_lt (n : Nat) (hn : n < 2 ^ 31) : toJint (n : Int) = n := by
  unfold toJint wrapSigned
  norm_num at hn ⊢
  omega

theorem toJlong_of_fits (x : Int) (hlo : -2 ^ 63 ≤ x) (hhi : x < 2 ^ 63) : toJlong x = x := by
  unfold toJlong wrapSigned
  norm_num at hlo hhi ⊢
  omega

/-- The carrier `fill_cephstat` leaves, field by field, whatever it held before. -/
theorem fill_cephstat_eq (P : Platform) (c : CephStat) (st : Stat) :
    fill_cephstat P c st =
      { mode := toJint st.st_mode
        uid := toJint st.st_uid
        gid := toJint st.st_gid
        size := st.st_size
        blksize := st.st_blksize
        blocks := st.st_blocks
        a_time := toJlong (st.st_atime * 1000)
        m_time := toJlong (st.st_mtime * 1000)
        is_file := P.S_ISREG st.st_mode
        is_directory := P.S_ISDIR st.st_mode
        is_symlink := P.S_ISLNK st.st_mode } := by
  simp [fill_cephstat, SetIntField, SetLongField, SetBooleanField]

/-- C8, as the code has it: for a native stat whose `st_mode`, `st_uid`,
`st_gid` are below 2^31 and whose `st_atime * 1000` and `st_mtime * 1000` fit a
signed 64-bit integer, the filler overwrites every attribute of the carrier:
mode, uid, gid, size, blksize, blocks are the native values, `a_time` and
`m_time` are the native seconds times 1000, and the three type flags are the
answers of `S_ISREG`, `S_ISDIR`, `S_ISLNK` on `st_mode`. -/
theorem fill_cephstat_sets_all (P : Platform) (c : CephStat) (st : Stat)
    (hmode : st.st_mode < 2 ^ 31) (huid : st.st_uid < 2 ^ 31) (hgid : st.st_gid < 2 ^ 31)
    (ha : -2 ^ 63 ≤ st.st_atime * 1000 ∧ st.st_atime * 1000 < 2 ^ 63)
    (hm : -2 ^ 63 ≤ st.st_mtime * 1000 ∧ st.st_mtime * 1000 < 2 ^ 63) :
    fill_cephstat P c st =
      { mode := st.st_mode
        uid := st.st_uid
        gid := st.st_gid
        size := st.st_size
        blksize := st.st_blksize
        blocks := st.st_blocks
        a_time := st.st_atime * 1000
        m_time := st.st_mtime * 1000
        is_file := P.S_ISREG st.st_mode
        is_directory := P.S_ISDIR st.st_mode
        is_symlink := P.S_ISLNK st.st_mode } := by
  rw [fill_cephstat_eq, toJint_of_lt _ hmode, toJint_of_lt _ huid, toJint_of_lt _ hgid,
    toJlong_of_fits _ ha.1 ha.2, toJlong_of_fits _ hm.1 hm.2]

/-- The filler on the stat of a regular file of mode `0100644`. -/
theorem fill_cephstat_sets_all_witness :
    fill_cephstat linuxPlatform emptyCephStat scenarioStat =
      { mode := 33188
        uid := 1000
        gid := 1000
        size := 3
        blksize := 4096
        blocks := 8
        a_time := 1700000000000
        m_time := 1700000001000
        is_file := true
        is_directory := false
        is_symlink := false } :=
  fill_cephstat_sets_all linuxPlatform emptyCephStat scenarioStat (by decide) (by decide)
    (by decide) (by decide) (by decide)

/-- C8 fails on a native stat within the range of its C types: with
`st_mtime = 2^62` the product `st_mtime * 1000` overflows `long` and the
carrier receives 0, and the unsigned `st_uid = 2^32 - 1` arrives as `-1`. -/
theorem fill_cephstat_overflow :
    (⟨33188, 4294967295, 0, 0, 0, 0, 0, 4611686018427387904⟩ : Stat).InRange ∧
    (fill_cephstat linuxPlatform emptyCephStat
      ⟨33188, 4294967295, 0, 0, 0, 0, 0, 4611686018427387904⟩).m_time = 0 ∧
    (0 : Int) ≠ 4611686018427387904 * 1000 ∧
    (fill_cephstat linuxPlatform emptyCephStat
      ⟨33188, 4294967295, 0, 0, 0, 0, 0, 4611686018427387904⟩).uid = -1 := by
  refine ⟨?_, ?_, ?_, ?_⟩
  · simp only [Stat.InRange]
    decide
  · rw [fill_cephstat_eq]
    decide
  · decide
  · rw [fill_cephstat_eq]
    decide

/-! ## Argument validation -/

theorem rejectedNull_throw (h : Host) (hh : h.ThrowsOk) (msg : String) :
    RejectedNull (cephThrowNullArg h msg) := by
  unfold RejectedNull cephThrowNullArg
  rw [THROW_ok h hh]
  exact ⟨⟨msg, rfl⟩, rfl, rfl⟩

/-- C1 at the read of the specification's scenario 4 (a 16-byte buffer, size
16, a stub reporting 8 bytes with `rc = 0`), as the code runs it: the first bounds
check fires on the non-zero size, the call raises the index-bounds exception
with the message of the negative-size check, returns -1 and never reaches the
native read. -/
theorem native_ceph_read_full_buffer :
    native_ceph_read linuxPlatform okHost scenarioRgw 1 4097 0 (some (List.replicate 16 0)) 16 =
      (-1, [Event.raised "java/lang/IndexOutOfBoundsException" "@size is negative",
            Event.deleteLocalRef "java/lang/IndexOutOfBoundsException"]) := by
  decide

/-- Every non-zero size is rejected by `native_ceph_read`, whatever the buffer. -/
theorem native_ceph_read_nonzero_size (P : Platform) (h : Host) (hh : h.ThrowsOk) (rgw : Rgw)
    (fs fd offset : Int) (buf : List Int) (size : Int) (hs : size ≠ 0) :
    (native_ceph_read P h rgw fs fd offset (some buf) size).1 = -1 ∧
    raisedOf (native_ceph_read P h rgw fs fd offset (some buf) size).2 =
      [("java/lang/IndexOutOfBoundsException", "@size is negative")] ∧
    nativeCalls (native_ceph_read P h rgw fs fd offset (some buf) size).2 = [] := by
  have e : native_ceph_read P h rgw fs fd offset (some buf) size =
      (-1, [Event.raised "java/lang/IndexOutOfBoundsException" "@size is negative",
            Event.deleteLocalRef "java/lang/IndexOutOfBoundsException"]) := by
    simp only [native_ceph_read, if_pos hs, cephThrowIndexBounds, THROW_ok h hh]
  rw [e]
  exact ⟨rfl, rfl, rfl⟩

/-- The sibling `native_ceph_write` accepts the same buffer and size: it calls
the native write once and returns the byte count the stub reports. -/
theorem native_ceph_write_full_buffer :
    native_ceph_write linuxPlatform okHost scenarioRgw 1 4097 0 (some (List.replicate 16 0)) 16 =
      (3, [Event.getByteArrayElements (List.replicate 16 0) true,
           Event.rgw_write 1 4097 0 16,
           Event.releaseByteArrayElements (List.replicate 16 0) .JNI_ABORT]) := by
  decide

/-- C4: in a host that resolves the exception carriers, each path-taking
operation (statfs, listdir, unlink, rename, mkdirs, lstat, setattr, open),
called with a null path and any other arguments, raises exactly one
null-argument exception and returns its failure value (-1, or `NULL` for
listdir) without a pin request and without a call into the gateway library.
For rename the null path is the source or the destination directory path. -/
theorem null_path_rejected (P : Platform) (h : Host) (hh : h.ThrowsOk) (rgw : Rgw) (fs : Int)
    (fuel : Nat) (vfs : Option CephStatVFS) (stat : Option CephStat)
    (s1 s2 s3 : Option String) (mode flags mask : Int) :
    ((native_ceph_statfs P h rgw fs none vfs).1 = -1 ∧
      RejectedNull (native_ceph_statfs P h rgw fs none vfs).2.1) ∧
    (native_ceph_listdir P h rgw fuel fs none = some (none, cephThrowNullArg h "@path is null") ∧
      RejectedNull (cephThrowNullArg h "@path is null")) ∧
    ((native_ceph_unlink P h rgw fs none).1 = -1 ∧
      RejectedNull (native_ceph_unlink P h rgw fs none).2) ∧
    ((native_ceph_rename P h rgw fs none s1 s2 s3).1 = -1 ∧
      RejectedNull (native_ceph_rename P h rgw fs none s1 s2 s3).2) ∧
    ((native_ceph_rename P h rgw fs s1 s2 none s3).1 = -1 ∧
      RejectedNull (native_ceph_rename P h rgw fs s1 s2 none s3).2) ∧
    ((native_ceph_mkdirs P h rgw fs none s1 mode).1 = -1 ∧
      RejectedNull (native_ceph_mkdirs P h rgw fs none s1 mode).2) ∧
    ((native_ceph_lstat P h rgw fs none s1 stat).1 = -1 ∧
      RejectedNull (native_ceph_lstat P h rgw fs none s1 stat).2.1) ∧
    ((native_ceph_setattr P h rgw fs none stat mask).1 = -1 ∧
      RejectedNull (native_ceph_setattr P h rgw fs none stat mask).2) ∧
    ((native_ceph_open P h rgw fs none flags mode).1 = -1 ∧
      RejectedNull (native_ceph_open P h rgw fs none flags mode).2) := by
  have hr := rejectedNull_throw h hh
  refine ⟨⟨rfl, hr _⟩, ⟨rfl, hr _⟩, ⟨rfl, hr _⟩, ⟨rfl, hr _⟩, ?_, ⟨rfl, hr _⟩, ⟨rfl, hr _⟩,
    ⟨rfl, hr _⟩, ⟨rfl, hr _⟩⟩
  cases s1 with
  | none => exact ⟨rfl, hr _⟩
  | some a =>
    cases s2 with
    | none => exact ⟨rfl, hr _⟩
    | some b => exact ⟨rfl, hr _⟩

/-- A null path at `open` and at `rename` (null destination directory) in the
scenario host. -/
theorem null_path_rejected_witness :
    okHost.ThrowsOk ∧
    ((native_ceph_rename linuxPlatform okHost scenarioRgw 1 (some "/a") (some "f") none
        (some "g")).1 = -1 ∧
      RejectedNull (native_ceph_rename linuxPlatform okHost scenarioRgw 1 (some "/a") (some "f")
        none (some "g")).2) ∧
    ((native_ceph_open linuxPlatform okHost scenarioRgw 1 none 8 420).1 = -1 ∧
      RejectedNull (native_ceph_open linuxPlatform okHost scenarioRgw 1 none 8 420).2) :=
  have t := null_path_rejected linuxPlatform okHost okHost_throwsOk scenarioRgw 1 1 none none
    (some "/a") (some "f") (some "g") 420 8 0
  ⟨okHost_throwsOk, t.2.2.2.2.1, t.2.2.2.2.2.2.2.2⟩

/-! ## Pin and release pairing -/

/-- The two examples of C9 as the code runs them.  `lstat` whose lookup fails
with `-ENOENT` raises file-not-found and returns `-2`; it pinned the path and
the name, released the path once and never released the name.  `listdir` on
its success path returns the filtered names and never releases the path it
pinned. -/
theorem pins_without_release :
    (native_ceph_lstat linuxPlatform okHost scenarioRgw 1 (some "/nope") (some "x")
        (some emptyCephStat)).1 = -2 ∧
    (native_ceph_lstat linuxPlatform okHost scenarioRgw 1 (some "/nope") (some "x")
        (some emptyCephStat)).2.1 =
      [Event.getStringUTFChars (some "/nope") (some "/nope"),
       Event.getStringUTFChars (some "x") (some "x"),
       Event.rgw_lookup 1 (some "/nope") 2,
       Event.releaseStringUTFChars (some "/nope") (some "/nope"),
       Event.raised "java/io/FileNotFoundException" "",
       Event.deleteLocalRef "java/io/FileNotFoundException"] ∧
    pinCount (some "x") (native_ceph_lstat linuxPlatform okHost scenarioRgw 1 (some "/nope")
        (some "x") (some emptyCephStat)).2.1 = 1 ∧
    releaseCount (some "x") (native_ceph_lstat linuxPlatform okHost scenarioRgw 1 (some "/nope")
        (some "x") (some emptyCephStat)).2.1 = 0 ∧
    native_ceph_listdir linuxPlatform okHost scenarioRgw 1 1 (some "/dir") =
      some (some ["a", "b"],
        [Event.getStringUTFChars (some "/dir") (some "/dir"),
         Event.rgw_lookup 1 (some "/dir") 0,
         Event.rgw_readdir 1 4097 0]) ∧
    pinCount (some "/dir")
        [Event.getStringUTFChars (some "/dir") (some "/dir"),
         Event.rgw_lookup 1 (some "/dir") 0,
         Event.rgw_readdir 1 4097 0] = 1 ∧
    releaseCount (some "/dir")
        [Event.getStringUTFChars (some "/dir") (some "/dir"),
         Event.rgw_lookup 1 (some "/dir") 0,
         Event.rgw_readdir 1 4097 0] = 0 := by
  refine ⟨?_, ?_, ?_, ?_, ?_, ?_, ?_⟩ <;> decide

theorem releaseCount_append (j : Option String) (l1 l2 : List Event) :
    releaseCount j (l1 ++ l2) = releaseCount j l1 + releaseCount j l2 := by
  unfold releaseCount
  rw [List.countP_append]

theorem releaseCount_THROW (j : Option String) (h : Host) (cls msg : String) :
    releaseCount j (THROW h cls msg) = 0 := by
  unfold THROW
  split_ifs <;> rfl

theorem releaseCount_handle_error (j : Option String) (P : Platform) (h : Host) (rc : Int) :
    releaseCount j (handle_error P h rc) = 0 := by
  unfold handle_error cephThrowFNF cephThrowFileExists
  split_ifs <;> exact releaseCount_THROW j h _ _

/-- On no path does `native_ceph_lstat` release the view of the name it pins:
for every host, gateway and outcome of the native calls the release count of a
name different from the path is 0. -/
theorem native_ceph_lstat_never_releases_name (P : Platform) (h : Host) (rgw : Rgw) (fs : Int)
    (path : String) (j_name : Option String) (c : CephStat) (hne : j_name ≠ some path) :
    releaseCount j_name (native_ceph_lstat P h rgw fs (some path) j_name (some c)).2.1 = 0 := by
  have hrel : releaseCount j_name
      [Event.getStringUTFChars (some path) (h.getStringUTFChars (some path)),
       Event.getStringUTFChars j_name (h.getStringUTFChars j_name),
       Event.rgw_lookup fs (h.getStringUTFChars (some path)) P.RGW_LOOKUP_FLAG_RCB,
       Event.releaseStringUTFChars (some path) (h.getStringUTFChars (some path))] = 0 := by
    simp [releaseCount, List.countP_cons, Ne.symm hne]
  simp only [native_ceph_lstat]
  split_ifs <;>
    simp only [releaseCount_append, releaseCount_handle_error, hrel, Nat.add_zero] <;> rfl

/-! ## Failure paths of open -/

/-- C10, as the code has it: in a host that resolves the exception carriers,
every failing step of `open` raises exactly one exception.  A null path and a
failed pin return -1.  A lookup that returns a negative code returns that code
with the exception the error mapper gives it.  A native open that returns a
negative code raises the mapped exception and the call returns the handle the
lookup stored. -/
theorem native_ceph_open_failure (P : Platform) (h : Host) (hh : h.ThrowsOk) (rgw : Rgw)
    (fs : Int) (path : String) (j_flags j_mode : Int) :
    ((native_ceph_open P h rgw fs none j_flags j_mode).1 = -1 ∧
      raisedOf (native_ceph_open P h rgw fs none j_flags j_mode).2 =
        [("java/lang/NullPointerException", "@path is null")]) ∧
    (h.getStringUTFChars (some path) = none →
      (native_ceph_open P h rgw fs (some path) j_flags j_mode).1 = -1 ∧
      raisedOf (native_ceph_open P h rgw fs (some path) j_flags j_mode).2 =
        [("java/lang/InternalError", "Failed to pin memory")]) ∧
    (h.getStringUTFChars (some path) ≠ none →
      (rgw.rgw_lookup fs (h.getStringUTFChars (some path)) (open_lookup_flags P j_flags)).1 < 0 →
      (native_ceph_open P h rgw fs (some path) j_flags j_mode).1 =
        (rgw.rgw_lookup fs (h.getStringUTFChars (some path)) (open_lookup_flags P j_flags)).1 ∧
      raisedOf (native_ceph_open P h rgw fs (some path) j_flags j_mode).2 =
        raisedOf (handle_error P h
          (rgw.rgw_lookup fs (h.getStringUTFChars (some path))
            (open_lookup_flags P j_flags)).1) ∧
      (raisedOf (native_ceph_open P h rgw fs (some path) j_flags j_mode).2).length = 1) ∧
    (h.getStringUTFChars (some path) ≠ none →
      0 ≤ (rgw.rgw_lookup fs (h.getStringUTFChars (some path)) (open_lookup_flags P j_flags)).1 →
      rgw.rgw_open fs
        (rgw.rgw_lookup fs (h.getStringUTFChars (some path)) (open_lookup_flags P j_flags)).2
        (fixup_open_flags P j_flags) < 0 →
      (native_ceph_open P h rgw fs (some path) j_flags j_mode).1 =
        (rgw.rgw_lookup fs (h.getStringUTFChars (some path)) (open_lookup_flags P j_flags)).2 ∧
      raisedOf (native_ceph_open P h rgw fs (some path) j_flags j_mode).2 =
        raisedOf (handle_error P h (rgw.rgw_open fs
          (rgw.rgw_lookup fs (h.getStringUTFChars (some path)) (open_lookup_flags P j_flags)).2
          (fixup_open_flags P j_flags))) ∧
      (raisedOf (native_ceph_open P h rgw fs (some path) j_flags j_mode).2).length = 1) := by
  have hlen : ∀ rc : Int, rc < 0 → (raisedOf (handle_error P h rc)).length = 1 := by
    intro rc _
    rw [raisedOf_handle_error P h hh rc]
    rfl
  refine ⟨?_, ?_, ?_, ?_⟩
  · exact ⟨rfl, raisedOf_THROW h hh _ _⟩
  · intro hpin
    have e : native_ceph_open P h rgw fs (some path) j_flags j_mode =
        (-1, [Event.getStringUTFChars (some path) none] ++
          cephThrowInternal h "Failed to pin memory") := by
      simp only [native_ceph_open, hpin]
    rw [e]
    exact ⟨rfl, raisedOf_THROW h hh _ _⟩
  · intro hpin hlk
    obtain ⟨cp, hcp⟩ := Option.ne_none_iff_exists'.mp hpin
    rw [hcp] at hlk
    have e : raisedOf (native_ceph_open P h rgw fs (some path) j_flags j_mode).2 =
        raisedOf (handle_error P h
          (rgw.rgw_lookup fs (h.getStringUTFChars (some path))
            (open_lookup_flags P j_flags)).1) := by
      simp only [native_ceph_open, hcp, if_pos hlk, raisedOf_append]
      rfl
    refine ⟨?_, e, ?_⟩
    · simp only [native_ceph_open, hcp, if_pos hlk]
    · rw [e, hcp]
      exact hlen _ hlk
  · intro hpin hlk hop
    obtain ⟨cp, hcp⟩ := Option.ne_none_iff_exists'.mp hpin
    rw [hcp] at hlk hop
    have e : raisedOf (native_ceph_open P h rgw fs (some path) j_flags j_mode).2 =
        raisedOf (handle_error P h (rgw.rgw_open fs
          (rgw.rgw_lookup fs (h.getStringUTFChars (some path)) (open_lookup_flags P j_flags)).2
          (fixup_open_flags P j_flags))) := by
      simp only [native_ceph_open, hcp, if_neg (not_lt.mpr hlk), if_pos hop, raisedOf_append]
      rfl
    refine ⟨?_, e, ?_⟩
    · simp only [native_ceph_open, hcp, if_neg (not_lt.mpr hlk)]
    · rw [e, hcp]
      exact hlen _ hop

/-- The failure paths of `open` in the scenario host: a lookup of `/nope` that
fails with `-ENOENT`, and a native open that fails with `-EACCES`. -/
theorem native_ceph_open_failure_witness :
    okHost.ThrowsOk ∧
    okHost.getStringUTFChars (some "/nope") ≠ none ∧
    (scenarioRgw.rgw_lookup 1 (okHost.getStringUTFChars (some "/nope"))
      (open_lookup_flags linuxPlatform 0)).1 < 0 ∧
    (native_ceph_open linuxPlatform okHost scenarioRgw 1 (some "/nope") 0 420).1 = -2 ∧
    (raisedOf (native_ceph_open linuxPlatform okHost scenarioRgw 1 (some "/nope") 0 420).2).length
      = 1 ∧
    (native_ceph_open linuxPlatform okHost openFailsRgw 1 (some "/f") 0 420).1 = 4097 ∧
    (raisedOf (native_ceph_open linuxPlatform okHost openFailsRgw 1 (some "/f") 0 420).2).length
      = 1 :=
  have t1 := (native_ceph_open_failure linuxPlatform okHost okHost_throwsOk scenarioRgw 1
    "/nope" 0 420).2.2.1 (by decide) (by decide)
  have t2 := (native_ceph_open_failure linuxPlatform okHost okHost_throwsOk openFailsRgw 1
    "/f" 0 420).2.2.2 (by decide) (by decide) (by decide)
  ⟨okHost_throwsOk, by decide, by decide, t1.1, t1.2.2, t2.1, t2.2.2⟩

/-- C10 fails where the lookup fails and where the native open fails: with a
lookup returning `-ENOENT` the call returns -2, and with a native open
returning `-EACCES` it returns the handle 4097; in both an exception is
raised and the value returned is not -1. -/
theorem native_ceph_open_not_minus_one :
    native_ceph_open linuxPlatform okHost scenarioRgw 1 (some "/nope") 0 420 =
      (-2, [Event.getStringUTFChars (some "/nope") (some "/nope"),
            Event.rgw_lookup 1 (some "/nope") 8,
            Event.raised "java/io/FileNotFoundException" "",
            Event.deleteLocalRef "java/io/FileNotFoundException"]) ∧
    native_ceph_open linuxPlatform okHost openFailsRgw 1 (some "/f") 0 420 =
      (4097, [Event.getStringUTFChars (some "/f") (some "/f"),
              Event.rgw_lookup 1 (some "/f") 8,
              Event.rgw_open 1 4097 0,
              Event.releaseStringUTFChars (some "/f") (some "/f"),
              Event.raised "java/io/IOException" "Permission denied",
              Event.deleteLocalRef "java/io/IOException"]) ∧
    (-2 : Int) ≠ -1 ∧ (4097 : Int) ≠ -1 := by
  refine ⟨?_, ?_, ?_, ?_⟩ <;> decide

/-! ## The readdir collector and listdir -/

theorem okHost_allocatesOk : okHost.AllocatesOk :=
  ⟨fun _ => rfl, fun _ => rfl, fun _ => rfl, fun _ _ => rfl⟩

theorem readdir_cb_ok (h : Host) (hn : ∀ s, h.newString s = true) (name : String)
    (contents : List String) :
    readdir_cb h name contents = (true, contents ++ [name].filter notDotEntry) := by
  unfold readdir_cb
  rw [if_neg (by simp [hn name])]
  by_cases hk : name ≠ "." ∧ name ≠ ".."
  · have hd : notDotEntry name = true := by simp [notDotEntry, hk]
    simp [hk, List.filter, hd]
  · have hd : notDotEntry name = false := by simp only [notDotEntry, decide_eq_false hk]
    simp only [if_neg hk, List.filter, hd, List.append_nil]

theorem deliver_ok (h : Host) (hn : ∀ s, h.newString s = true) (names contents : List String) :
    deliver h names contents = contents ++ names.filter notDotEntry := by
  induction names generalizing contents with
  | nil => simp [deliver]
  | cons name rest ih =>
    have hcons : (name :: rest).filter notDotEntry =
        [name].filter notDotEntry ++ rest.filter notDotEntry := by
      rw [← List.filter_append]
      rfl
    simp only [deliver, readdir_cb_ok h hn, if_true, ih, hcons, List.append_assoc]

theorem fillDirlist_ok (h : Host) (hs : ∀ s, h.newStringUTF s = true)
    (hset : ∀ i s, h.setObjectArrayElementThrows i s = false) (l : List String) (i : Nat)
    (acc : List String) : fillDirlist h l i acc = some (acc ++ l) := by
  induction l generalizing i acc with
  | nil => simp [fillDirlist]
  | cons it rest ih =>
    simp [fillDirlist, hs it, hset i it, ih]

theorem readdirLoop_ok (h : Host) (hn : ∀ s, h.newString s = true) (rgw : Rgw) (fs fh : Int)
    (n : Nat) :
    ∀ (fuel o : Nat) (contents : List String) (log : List Event),
      (∀ i, i < n → (batchAt rgw fs fh o i).eof = false ∧ 0 ≤ (batchAt rgw fs fh o i).rc) →
      (batchAt rgw fs fh o n).eof = true → 0 ≤ (batchAt rgw fs fh o n).rc → n < fuel →
      ∃ log1, readdirLoop h rgw fs fh fuel o contents log =
        some ((batchAt rgw fs fh o n).rc,
          contents ++ (yieldedNames rgw fs fh o n).filter notDotEntry, log1) := by
  induction n with
  | zero =>
    intro fuel o contents log _ heof hrc hfuel
    obtain ⟨f, rfl⟩ : ∃ f, fuel = f + 1 := ⟨fuel - 1, by omega⟩
    have heof1 : (rgw.rgw_readdir fs fh o).eof = true := heof
    have hrc1 : ¬ (rgw.rgw_readdir fs fh o).rc < 0 := not_lt.mpr hrc
    refine ⟨log ++ [Event.rgw_readdir fs fh o], ?_⟩
    simp only [readdirLoop, if_neg hrc1, heof1, if_true, deliver_ok h hn, batchAt, offsetAt,
      yieldedNames]
  | succ n ih =>
    intro fuel o contents log hmore heof hrc hfuel
    obtain ⟨f, rfl⟩ : ∃ f, fuel = f + 1 := ⟨fuel - 1, by omega⟩
    have h0 := hmore 0 (Nat.succ_pos n)
    have heof0 : (rgw.rgw_readdir fs fh o).eof = false := h0.1
    have hrc0 : ¬ (rgw.rgw_readdir fs fh o).rc < 0 := not_lt.mpr h0.2
    have hmore1 : ∀ i, i < n →
        (batchAt rgw fs fh (rgw.rgw_readdir fs fh o).offset i).eof = false ∧
        0 ≤ (batchAt rgw fs fh (rgw.rgw_readdir fs fh o).offset i).rc :=
      fun i hi => hmore (i + 1) (Nat.succ_lt_succ hi)
    obtain ⟨log1, hl⟩ := ih f (rgw.rgw_readdir fs fh o).offset
      (contents ++ (rgw.rgw_readdir fs fh o).names.filter notDotEntry)
      (log ++ [Event.rgw_readdir fs fh o]) hmore1 heof hrc (by omega)
    refine ⟨log1, ?_⟩
    simp only [readdirLoop, if_neg hrc0, heof0, deliver_ok h hn]
    rw [hl]
    simp only [yieldedNames, List.filter_append, List.append_assoc]
    rfl

/-- C5: on the success path of listdir (the path is pinned, the lookup
succeeds, no allocation fails, the readdir calls 0 to `n` return no negative
code and call `n` is the first to set `eof`), for every fuel above `n` the
call returns the names the library handed to the callback over these calls,
with every `.` and `..` removed and the order kept; and the callback answers
true (continue) for every name. -/
theorem native_ceph_listdir_filters (P : Platform) (h : Host) (rgw : Rgw) (fs : Int)
    (path : String) (fuel n : Nat) (halloc : h.AllocatesOk)
    (hpin : h.getStringUTFChars (some path) ≠ none)
    (hlk : 0 ≤ (rgw.rgw_lookup fs (h.getStringUTFChars (some path)) P.RGW_LOOKUP_FLAG_NONE).1)
    (hmore : ∀ i, i < n →
      (batchAt rgw fs
        (rgw.rgw_lookup fs (h.getStringUTFChars (some path)) P.RGW_LOOKUP_FLAG_NONE).2
        0 i).eof = false ∧
      0 ≤ (batchAt rgw fs
        (rgw.rgw_lookup fs (h.getStringUTFChars (some path)) P.RGW_LOOKUP_FLAG_NONE).2
        0 i).rc)
    (hlast : (batchAt rgw fs
        (rgw.rgw_lookup fs (h.getStringUTFChars (some path)) P.RGW_LOOKUP_FLAG_NONE).2
        0 n).eof = true ∧
      0 ≤ (batchAt rgw fs
        (rgw.rgw_lookup fs (h.getStringUTFChars (some path)) P.RGW_LOOKUP_FLAG_NONE).2
        0 n).rc)
    (hfuel : n < fuel) :
    (native_ceph_listdir P h rgw fuel fs (some path)).map Prod.fst =
      some (some ((yieldedNames rgw fs
        (rgw.rgw_lookup fs (h.getStringUTFChars (some path)) P.RGW_LOOKUP_FLAG_NONE).2
        0 n).filter notDotEntry)) ∧
    ∀ name contents, (readdir_cb h name contents).1 = true := by
  obtain ⟨hn, harr, hstr, hset⟩ := halloc
  refine ⟨?_, fun name contents => by rw [readdir_cb_ok h hn]⟩
  obtain ⟨cp, hcp⟩ := Option.ne_none_iff_exists'.mp hpin
  rw [hcp] at hlk hmore hlast
  obtain ⟨log1, hl⟩ := readdirLoop_ok h hn rgw fs
    (rgw.rgw_lookup fs (some cp) P.RGW_LOOKUP_FLAG_NONE).2 n fuel 0 []
    ([Event.getStringUTFChars (some path) (some cp)] ++
      [Event.rgw_lookup fs (some cp) P.RGW_LOOKUP_FLAG_NONE])
    hmore hlast.1 hlast.2 hfuel
  simp only [native_ceph_listdir, hcp, if_neg (not_lt.mpr hlk), hl, if_neg (not_lt.mpr hlast.2),
    harr, fillDirlist_ok h hstr hset, List.nil_append]
  simp

/-- The listdir of the specification's scenario 6: the stub yields `.`, `a`,
`..`, `b` in one call that sets `eof`, and the result is `a`, `b`. -/
theorem native_ceph_listdir_filters_witness :
    okHost.AllocatesOk ∧
    okHost.getStringUTFChars (some "/dir") ≠ none ∧
    (batchAt scenarioRgw 1 4097 0 0).eof = true ∧
    (native_ceph_listdir linuxPlatform okHost scenarioRgw 1 1 (some "/dir")).map Prod.fst =
      some (some ["a", "b"]) :=
  ⟨okHost_allocatesOk, by decide, by decide,
    (native_ceph_listdir_filters linuxPlatform okHost scenarioRgw 1 "/dir" 1 0
      okHost_allocatesOk (by decide) (by decide) (fun i hi => absurd hi (Nat.not_lt_zero i))
      ⟨by decide, by decide⟩ (by decide)).1⟩

/-! ## Lookup flags of open -/

theorem lookupFlags_append (l1 l2 : List Event) :
    lookupFlags (l1 ++ l2) = lookupFlags l1 ++ lookupFlags l2 := by
  induction l1 with
  | nil => rfl
  | cons e es ih =>
    cases e <;> simp [lookupFlags, ih]

theorem lookupFlags_THROW (h : Host) (cls msg : String) :
    lookupFlags (THROW h cls msg) = [] := by
  unfold THROW
  split_ifs <;> rfl

theorem lookupFlags_handle_error (P : Platform) (h : Host) (rc : Int) :
    lookupFlags (handle_error P h rc) = [] := by
  unfold handle_error cephThrowFNF cephThrowFileExists
  split_ifs <;> exact lookupFlags_THROW h _ _

/-- The lookup flags of `open` when the identifier `JAVA_O_CREATE` of line 769
is the host `CREAT` bit. -/
theorem open_lookup_flags_eq (P : Platform) (hP : P.JAVA_O_CREATE = JAVA_O_CREAT) (f : Int) :
    open_lookup_flags P f =
      if f.testBit 3 = true then P.RGW_LOOKUP_FLAG_FILE ||| P.RGW_LOOKUP_FLAG_CREATE
      else P.RGW_LOOKUP_FLAG_FILE := by
  have h3 := land_two_pow_ne_zero f 3
  norm_num at h3
  unfold open_lookup_flags
  rw [hP]
  simp only [JAVA_O_CREAT]
  by_cases hb : f.testBit 3 = true
  · rw [if_pos hb, if_pos (by simpa using h3.2 hb)]
  · rw [if_neg hb, if_neg (fun hn => hb (h3.1 (by simpa using hn)))]

/-- C11: where the identifier `JAVA_O_CREATE` that line 769 tests is the host
`CREAT` bit (8), an `open` that reaches the lookup (non-null path, pin
succeeded) makes exactly one lookup, and its flags are `FILE|CREATE` when the
host flag word contains `CREAT` (bit 3) and exactly `FILE` otherwise; with
`CREAT` present the flags include `CREATE`. -/
theorem native_ceph_open_lookup_flags (P : Platform) (hP : P.JAVA_O_CREATE = JAVA_O_CREAT)
    (h : Host) (rgw : Rgw) (fs : Int) (path : String) (f mode : Int)
    (hpin : h.getStringUTFChars (some path) ≠ none) :
    lookupFlags (native_ceph_open P h rgw fs (some path) f mode).2 =
      [if f.testBit 3 = true then P.RGW_LOOKUP_FLAG_FILE ||| P.RGW_LOOKUP_FLAG_CREATE
       else P.RGW_LOOKUP_FLAG_FILE] ∧
    (f.testBit 3 = true →
      ∀ flags, flags ∈ lookupFlags (native_ceph_open P h rgw fs (some path) f mode).2 →
        flags &&& P.RGW_LOOKUP_FLAG_CREATE = P.RGW_LOOKUP_FLAG_CREATE) := by
  obtain ⟨cp, hcp⟩ := Option.ne_none_iff_exists'.mp hpin
  have e : lookupFlags (native_ceph_open P h rgw fs (some path) f mode).2 =
      [open_lookup_flags P f] := by
    simp only [native_ceph_open, hcp]
    split_ifs <;>
      simp [lookupFlags_append, lookupFlags_handle_error, lookupFlags]
  rw [e, open_lookup_flags_eq P hP]
  refine ⟨rfl, fun hb flags hmem => ?_⟩
  rw [if_pos hb, List.mem_singleton] at hmem
  rw [hmem, Nat.and_distrib_right, Nat.and_self]
  apply Nat.eq_of_testBit_eq
  intro i
  simp only [Nat.testBit_or, Nat.testBit_and]
  cases P.RGW_LOOKUP_FLAG_FILE.testBit i <;> cases P.RGW_LOOKUP_FLAG_CREATE.testBit i <;> rfl

/-- An `open` with `CREAT|WRONLY` (72) and one with `RDONLY` (1) on the Linux
values, where `FILE` is 8 and `CREATE` is 1. -/
theorem native_ceph_open_lookup_flags_witness :
    linuxPlatform.JAVA_O_CREATE = JAVA_O_CREAT ∧
    okHost.getStringUTFChars (some "/f") ≠ none ∧
    lookupFlags (native_ceph_open linuxPlatform okHost scenarioRgw 1 (some "/f") 72 420).2 = [9] ∧
    lookupFlags (native_ceph_open linuxPlatform okHost scenarioRgw 1 (some "/f") 1 420).2 = [8] :=
  ⟨rfl, by decide,
    (native_ceph_open_lookup_flags linuxPlatform rfl okHost scenarioRgw 1 "/f" 72 420
      (by decide)).1,
    (native_ceph_open_lookup_flags linuxPlatform rfl okHost scenarioRgw 1 "/f" 1 420
      (by decide)).1⟩

/-! ## Mount -/

theorem nativeCalls_append (l1 l2 : List Event) :
    nativeCalls (l1 ++ l2) = nativeCalls l1 ++ nativeCalls l2 := by
  unfold nativeCalls
  rw [List.filter_append]

theorem nativeCalls_THROW (h : Host) (cls msg : String) : nativeCalls (THROW h cls msg) = [] := by
  unfold THROW
  split_ifs <;> rfl

theorem nativeCalls_handle_error (P : Platform) (h : Host) (rc : Int) :
    nativeCalls (handle_error P h rc) = [] := by
  unfold handle_error cephThrowFNF cephThrowFileExists
  split_ifs <;> exact nativeCalls_THROW h _ _

theorem raisedOf_THROW_class (h : Host) (cls msg : String) (x : String × String)
    (hx : x ∈ raisedOf (THROW h cls msg)) : x.1 = cls := by
  unfold THROW at hx
  split_ifs at hx
  · simp [raisedOf] at hx
  · simp only [List.singleton_append, raisedOf, List.mem_singleton] at hx
    rw [hx]
  · simp [raisedOf] at hx

theorem raisedOf_handle_error_class (P : Platform) (h : Host) (rc : Int) (x : String × String)
    (hx : x ∈ raisedOf (handle_error P h rc)) :
    x.1 = "java/io/FileNotFoundException" ∨ x.1 = CEPH_FILEEXISTS_CP ∨
      x.1 = "java/io/IOException" := by
  unfold handle_error cephThrowFNF cephThrowFileExists at hx
  split_ifs at hx
  · exact Or.inl (raisedOf_THROW_class h _ _ x hx)
  · exact Or.inr (Or.inl (raisedOf_THROW_class h _ _ x hx))
  · exact Or.inr (Or.inr (raisedOf_THROW_class h _ _ x hx))

/-- C12 at a mount whose `uid` is null, as the code runs it in a host whose pin
answers `NULL` for a null string: there is no null check, the four strings are
passed to the pin, `rgw_mount2` is called with a `NULL` uid, no exception is
raised and the mount token the stub stored is returned. -/
theorem native_ceph_mount_null_uid :
    native_ceph_mount linuxPlatform okHost scenarioRgw 7 none (some "ak") (some "sk") (some "/") =
      (4096,
       [Event.getStringUTFChars none none,
        Event.getStringUTFChars (some "ak") (some "ak"),
        Event.getStringUTFChars (some "sk") (some "sk"),
        Event.getStringUTFChars (some "/") (some "/"),
        Event.rgw_mount2 7 none (some "ak") (some "sk") (some "/"),
        Event.releaseStringUTFChars none none,
        Event.releaseStringUTFChars (some "ak") (some "ak"),
        Event.releaseStringUTFChars (some "sk") (some "sk")]) ∧
    raisedOf (native_ceph_mount linuxPlatform okHost scenarioRgw 7 none (some "ak") (some "sk")
      (some "/")).2 = [] := by
  refine ⟨?_, ?_⟩ <;> decide

/-- Whatever its four strings are, null or not, and whatever the host and the
gateway do, `native_ceph_mount` calls `rgw_mount2` exactly once and raises no
null-argument exception. -/
theorem native_ceph_mount_never_rejects (P : Platform) (h : Host) (rgw : Rgw) (cct : Int)
    (j_uid j_accessKey j_secretKey j_root : Option String) :
    nativeCalls (native_ceph_mount P h rgw cct j_uid j_accessKey j_secretKey j_root).2 =
      [Event.rgw_mount2 cct (h.getStringUTFChars j_uid) (h.getStringUTFChars j_accessKey)
        (h.getStringUTFChars j_secretKey) (h.getStringUTFChars j_root)] ∧
    ∀ msg, ("java/lang/NullPointerException", msg) ∉
      raisedOf (native_ceph_mount P h rgw cct j_uid j_accessKey j_secretKey j_root).2 := by
  constructor
  · simp only [native_ceph_mount]
    split_ifs <;>
      simp only [nativeCalls_append, nativeCalls_handle_error, List.append_nil] <;> rfl
  · intro msg hmem
    simp only [native_ceph_mount] at hmem
    split_ifs at hmem
    · rw [raisedOf_append] at hmem
      rcases List.mem_append.mp hmem with h1 | h2
      · simp [raisedOf] at h1
      · have n1 : "java/lang/NullPointerException" ≠ "java/io/FileNotFoundException" := by
          decide
        have n2 : "java/lang/NullPointerException" ≠ CEPH_FILEEXISTS_CP := by decide
        have n3 : "java/lang/NullPointerException" ≠ "java/io/IOException" := by decide
        rcases raisedOf_handle_error_class P h _ _ h2 with hc | hc | hc
        · exact n1 hc
        · exact n2 hc
        · exact n3 hc
    · simp [raisedOf] at hmem

/-! ## Iterating the open-flag translator -/

theorem fixup_open_flags_lor (P : Platform) (a b : Int) :
    fixup_open_flags P (Int.lor a b) = fixup_open_flags P a ||| fixup_open_flags P b := by
  simp only [fixup_open_flags_eq, Int.testBit_lor, sel_or]
  ac_rfl

theorem fixup_open_flags_natCast_or (P : Platform) (x y : Nat) :
    fixup_open_flags P ((x ||| y : Nat) : Int) =
      fixup_open_flags P (x : Int) ||| fixup_open_flags P (y : Int) :=
  fixup_open_flags_lor P x y

theorem testBit_zero_int (i : Nat) : (0 : Int).testBit i = false := by
  show Nat.testBit 0 i = false
  simp

theorem fixup_open_flags_zero (P : Platform) : fixup_open_flags P 0 = 0 := by
  rw [fixup_open_flags_eq]
  simp [testBit_zero_int, sel]

theorem fixup_open_flags_sel (P : Platform) (b : Bool) (v : Nat) :
    fixup_open_flags P ((sel b v : Nat) : Int) = sel b (fixup_open_flags P (v : Int)) := by
  cases b
  · simp only [sel, Bool.false_eq_true, if_false, Nat.cast_zero, fixup_open_flags_zero]
  · simp only [sel, if_true]

theorem testBit_two_pow_int (k i : Nat) :
    Int.testBit ((2 ^ k : Nat) : Int) i = decide (k = i) := by
  show Nat.testBit (2 ^ k) i = decide (k = i)
  exact Nat.testBit_two_pow

theorem fixup_open_flags_two_pow (P : Platform) (k : Nat) :
    fixup_open_flags P ((2 ^ k : Nat) : Int) =
      sel (decide (k = 0)) P.O_RDONLY ||| sel (decide (k = 1)) P.O_RDWR |||
      sel (decide (k = 2)) P.O_APPEND ||| sel (decide (k = 3)) P.O_CREAT |||
      sel (decide (k = 4)) P.O_TRUNC ||| sel (decide (k = 5)) P.O_EXCL |||
      sel (decide (k = 6)) P.O_WRONLY ||| sel (decide (k = 7)) P.O_DIRECTORY := by
  rw [fixup_open_flags_eq]
  simp only [testBit_two_pow_int]

/-- The translation of each single host bit is the native value paired with it. -/
theorem fixup_open_flags_host_bits (P : Platform) :
    fixup_open_flags P 1 = P.O_RDONLY ∧ fixup_open_flags P 2 = P.O_RDWR ∧
    fixup_open_flags P 4 = P.O_APPEND ∧ fixup_open_flags P 8 = P.O_CREAT ∧
    fixup_open_flags P 16 = P.O_TRUNC ∧ fixup_open_flags P 32 = P.O_EXCL ∧
    fixup_open_flags P 64 = P.O_WRONLY ∧ fixup_open_flags P 128 = P.O_DIRECTORY := by
  have t0 := fixup_open_flags_two_pow P 0
  have t1 := fixup_open_flags_two_pow P 1
  have t2 := fixup_open_flags_two_pow P 2
  have t3 := fixup_open_flags_two_pow P 3
  have t4 := fixup_open_flags_two_pow P 4
  have t5 := fixup_open_flags_two_pow P 5
  have t6 := fixup_open_flags_two_pow P 6
  have t7 := fixup_open_flags_two_pow P 7
  refine ⟨?_, ?_, ?_, ?_, ?_, ?_, ?_, ?_⟩
  · simpa [sel] using t0
  · simpa [sel] using t1
  · simpa [sel] using t2
  · simpa [sel] using t3
  · simpa [sel] using t4
  · simpa [sel] using t5
  · simpa [sel] using t6
  · simpa [sel] using t7

/-- C13, as the code has it: the open-flag translator, applied to its own
result read as a host flag word, is idempotent exactly on the platforms on
which it maps each of the eight native `O_*` values to itself. -/
theorem fixup_open_flags_idempotent_iff (P : Platform) :
    (∀ a : Int, fixup_open_flags P ((fixup_open_flags P a : Nat) : Int) = fixup_open_flags P a) ↔
    (fixup_open_flags P (P.O_RDONLY : Int) = P.O_RDONLY ∧
     fixup_open_flags P (P.O_RDWR : Int) = P.O_RDWR ∧
     fixup_open_flags P (P.O_APPEND : Int) = P.O_APPEND ∧
     fixup_open_flags P (P.O_CREAT : Int) = P.O_CREAT ∧
     fixup_open_flags P (P.O_TRUNC : Int) = P.O_TRUNC ∧
     fixup_open_flags P (P.O_EXCL : Int) = P.O_EXCL ∧
     fixup_open_flags P (P.O_WRONLY : Int) = P.O_WRONLY ∧
     fixup_open_flags P (P.O_DIRECTORY : Int) = P.O_DIRECTORY) := by
  obtain ⟨b0, b1, b2, b3, b4, b5, b6, b7⟩ := fixup_open_flags_host_bits P
  constructor
  · intro hid
    have i0 := hid 1
    have i1 := hid 2
    have i2 := hid 4
    have i3 := hid 8
    have i4 := hid 16
    have i5 := hid 32
    have i6 := hid 64
    have i7 := hid 128
    rw [b0] at i0
    rw [b1] at i1
    rw [b2] at i2
    rw [b3] at i3
    rw [b4] at i4
    rw [b5] at i5
    rw [b6] at i6
    rw [b7] at i7
    exact ⟨i0, i1, i2, i3, i4, i5, i6, i7⟩
  · rintro ⟨f0, f1, f2, f3, f4, f5, f6, f7⟩ a
    rw [fixup_open_flags_eq P a]
    simp only [fixup_open_flags_natCast_or, fixup_open_flags_sel, f0, f1, f2, f3, f4, f5, f6, f7]

/-- On a platform whose native values are the host constants the translator is
idempotent, here at the host word 200. -/
theorem fixup_open_flags_idempotent_iff_witness :
    fixup_open_flags hostValuedPlatform ((fixup_open_flags hostValuedPlatform 200 : Nat) : Int) =
      fixup_open_flags hostValuedPlatform 200 :=
  (fixup_open_flags_idempotent_iff hostValuedPlatform).2
    ⟨by decide, by decide, by decide, by decide, by decide, by decide, by decide, by decide⟩ 200

/-- C13 fails on the Linux values: the host `CREAT` (8) translates to
`O_CREAT` (64), and 64 read as a host word is `WRONLY`, which translates to
`O_WRONLY` (1). -/
theorem fixup_open_flags_not_idempotent :
    fixup_open_flags linuxPlatform 8 = 64 ∧
    fixup_open_flags linuxPlatform ((fixup_open_flags linuxPlatform 8 : Nat) : Int) = 1 ∧
    fixup_open_flags linuxPlatform ((fixup_open_flags linuxPlatform 8 : Nat) : Int) ≠
      fixup_open_flags linuxPlatform 8 := by
  refine ⟨?_, ?_, ?_⟩ <;> decide

/-! ## Times between the filler and setattr -/

theorem setattrStats_append (l1 l2 : List Event) :
    setattrStats (l1 ++ l2) = setattrStats l1 ++ setattrStats l2 := by
  induction l1 with
  | nil => rfl
  | cons e es ih =>
    cases e <;> simp [setattrStats, ih]

theorem setattrStats_THROW (h : Host) (cls msg : String) :
    setattrStats (THROW h cls msg) = [] := by
  unfold THROW
  split_ifs <;> rfl

theorem setattrStats_handle_error (P : Platform) (h : Host) (rc : Int) :
    setattrStats (handle_error P h rc) = [] := by
  unfold handle_error cephThrowFNF cephThrowFileExists
  split_ifs <;> exact setattrStats_THROW h _ _

/-- The one native stat a `setattr` that reaches the gateway passes to
`rgw_setattr`, built from the carrier. -/
theorem native_ceph_setattr_stat (P : Platform) (h : Host) (rgw : Rgw) (fs : Int)
    (path : String) (c : CephStat) (mask : Int)
    (hpin : h.getStringUTFChars (some path) ≠ none)
    (hlk : 0 ≤ (rgw.rgw_lookup fs (h.getStringUTFChars (some path)) P.RGW_LOOKUP_FLAG_NONE).1) :
    setattrStats (native_ceph_setattr P h rgw fs (some path) (some c) mask).2 =
      [{ st_mode := toU32 c.mode
         st_uid := toU32 c.uid
         st_gid := toU32 c.gid
         st_size := 0
         st_blksize := 0
         st_blocks := 0
         st_atime := Int.tdiv c.a_time 1000
         st_mtime := Int.tdiv c.m_time 1000 }] := by
  obtain ⟨cp, hcp⟩ := Option.ne_none_iff_exists'.mp hpin
  rw [hcp] at hlk
  simp only [native_ceph_setattr, hcp, if_neg (not_lt.mpr hlk)]
  split_ifs <;>
    simp [setattrStats_append, setattrStats_handle_error, setattrStats, GetIntField,
      GetLongField]

/-- C14: for a native stat whose `st_atime * 1000` and `st_mtime * 1000` fit a
signed 64-bit integer, the filler stores exactly these products, and a
`setattr` that reads the filled carrier back (path pinned, lookup succeeded)
passes to `rgw_setattr` exactly the original seconds; for an arbitrary
carrier, `setattr` passes its `m_time` and `a_time` divided by 1000 with
truncation toward zero. -/
theorem setattr_time_round_trip (P : Platform) (h : Host) (rgw : Rgw) (fs : Int)
    (path : String) (c0 c : CephStat) (st : Stat) (mask : Int)
    (hpin : h.getStringUTFChars (some path) ≠ none)
    (hlk : 0 ≤ (rgw.rgw_lookup fs (h.getStringUTFChars (some path)) P.RGW_LOOKUP_FLAG_NONE).1)
    (ha : -2 ^ 63 ≤ st.st_atime * 1000 ∧ st.st_atime * 1000 < 2 ^ 63)
    (hm : -2 ^ 63 ≤ st.st_mtime * 1000 ∧ st.st_mtime * 1000 < 2 ^ 63) :
    ((fill_cephstat P c0 st).m_time = st.st_mtime * 1000 ∧
      (fill_cephstat P c0 st).a_time = st.st_atime * 1000) ∧
    (setattrStats (native_ceph_setattr P h rgw fs (some path)
        (some (fill_cephstat P c0 st)) mask).2).map (fun s => (s.st_mtime, s.st_atime)) =
      [(st.st_mtime, st.st_atime)] ∧
    (setattrStats (native_ceph_setattr P h rgw fs (some path) (some c) mask).2).map
        (fun s => (s.st_mtime, s.st_atime)) =
      [(Int.tdiv c.m_time 1000, Int.tdiv c.a_time 1000)] := by
  have hfm : (fill_cephstat P c0 st).m_time = st.st_mtime * 1000 := by
    rw [fill_cephstat_eq]
    exact toJlong_of_fits _ hm.1 hm.2
  have hfa : (fill_cephstat P c0 st).a_time = st.st_atime * 1000 := by
    rw [fill_cephstat_eq]
    exact toJlong_of_fits _ ha.1 ha.2
  refine ⟨⟨hfm, hfa⟩, ?_, ?_⟩
  · rw [native_ceph_setattr_stat P h rgw fs path _ mask hpin hlk, hfm, hfa,
      Int.mul_tdiv_cancel _ (by decide), Int.mul_tdiv_cancel _ (by decide)]
    rfl
  · rw [native_ceph_setattr_stat P h rgw fs path c mask hpin hlk]
    rfl

/-- The round trip on the scenario stat, and the truncation toward zero on a
carrier holding -1500 ms and 1999 ms. -/
theorem setattr_time_round_trip_witness :
    (setattrStats (native_ceph_setattr linuxPlatform okHost scenarioRgw 1 (some "/f")
        (some (fill_cephstat linuxPlatform emptyCephStat scenarioStat)) 24).2).map
        (fun s => (s.st_mtime, s.st_atime)) = [(1700000001, 1700000000)] ∧
    (setattrStats (native_ceph_setattr linuxPlatform okHost scenarioRgw 1 (some "/f")
        (some { emptyCephStat with m_time := -1500, a_time := 1999 }) 24).2).map
        (fun s => (s.st_mtime, s.st_atime)) = [(-1, 1)] :=
  have t := setattr_time_round_trip linuxPlatform okHost scenarioRgw 1 "/f" emptyCephStat
    { emptyCephStat with m_time := -1500, a_time := 1999 } scenarioStat 24
    (by decide) (by decide) (by decide) (by decide)
  ⟨t.2.1, t.2.2⟩

end CephRgwJni
